import Mathlib

/-!
Verification of `scripts/generate_dashboard.py` (dashboard aggregation pipeline).

The Python source is shallowly embedded: JSON payloads become the inductive
`Json`, Python runtime values stored in the per-provider stats dict become
`PyVal`, the stats dict itself becomes the structure `StatsRecord` (one
`Option PyVal` per key used by the script; `none` models a missing key), and
code that can raise an uncaught exception returns `Except String α` (the
`String` names the Python exception class).

Modelling conventions, stated once here:
- machine integers are `Int`; Python `//` is `Int.fdiv` and `%` is `Int.fmod`
  (for positive divisors these agree with Python's floor semantics);
- wall-clock instants are whole seconds since the Unix epoch (`Int`);
  `datetime.isoformat` / `fromisoformat` are implemented over a proleptic
  Gregorian calendar exactly as CPython computes them (Hinnant's civil-date
  algorithm); sub-second precision is carried in microseconds where the parser
  accepts it;
- Python floats are opaque: a stored float is represented by its `repr` string
  (`PyVal.vfloat`), never recomputed — no claim here depends on IEEE
  arithmetic;
- ill-shaped JSON payloads that would raise `TypeError`/`AttributeError`
  inside the aggregator (e.g. a non-object element in a pull-request list) are
  outside the model; theorems that quantify over API responses carry
  well-formedness hypotheses keeping them in the modelled fragment.
-/

/-- A parsed JSON value, as returned by `json.loads`. -/
inductive Json where
  | jnull : Json
  | jbool : Bool → Json
  | jnum : Int → Json
  | jstr : String → Json
  | jarr : List Json → Json
  | jobj : List (String × Json) → Json

/-- A Python runtime value as stored in the per-provider stats dict. Floats are
opaque: `vfloat r` stands for the float whose `repr` is `r` (see header). -/
inductive PyVal where
  | vnone : PyVal
  | vbool : Bool → PyVal
  | vint : Int → PyVal
  | vstr : String → PyVal
  | vfloat : String → PyVal
deriving DecidableEq, Repr

namespace Json

/-- Python truthiness of a JSON-derived value. -/
def truthy : Json → Bool
  | jnull => false
  | jbool b => b
  | jnum n => n ≠ 0
  | jstr s => s ≠ ""
  | jarr l => !l.isEmpty
  | jobj l => !l.isEmpty

/-- Dictionary lookup `d.get(k)` (returns `none` when the key is missing or the
value is not an object; a non-object receiver would raise in Python — see the
well-formedness convention in the header). -/
def objGet : Json → String → Option Json
  | jobj fs, k => (fs.find? (fun p => p.1 = k)).map (·.2)
  | _, _ => none

/-- Python `k in d` key-membership test for objects. -/
def objHas : Json → String → Bool
  | jobj fs, k => fs.any (fun p => p.1 = k)
  | _, _ => false

/-- Coerce `isinstance(x, list)` data: the element list when the value is a
JSON array, `[]` otherwise. -/
def asList : Option Json → List Json
  | some (jarr l) => l
  | _ => []

/-- Integer content of a JSON number (`0` for non-numbers, which would raise in
Python — see the well-formedness convention in the header). -/
def asInt : Json → Int
  | jnum n => n
  | _ => 0

/-- Python `==` between two scalar JSON values used as dict keys. Arrays and
objects are unhashable in Python (using one as a key raises), so comparing
them `false` is outside the modelled fragment anyway. -/
def scalarEq : Json → Json → Bool
  | jnull, jnull => true
  | jbool a, jbool b => a = b
  | jnum a, jnum b => a = b
  | jstr a, jstr b => a = b
  | _, _ => false

end Json

/-- Python truthiness of an optional JSON-derived value (`None` is falsy). -/
def optTruthy : Option Json → Bool
  | none => false
  | some j => j.truthy

/-- Python `a or b` over two `dict.get` results (the first when truthy,
otherwise the second, where a missing key stands for `None`). -/
def pyOr (a b : Option Json) : Json :=
  match a with
  | some j => if j.truthy then j else (b.getD Json.jnull)
  | none => b.getD Json.jnull

/-- Conversion of a scalar JSON value into the Python value stored in the
stats dict. Arrays and objects map to an opaque placeholder (storing one would
be well-typed in Python but never happens for well-formed API payloads). -/
def Json.toPyVal : Json → PyVal
  | Json.jnull => PyVal.vnone
  | Json.jbool b => PyVal.vbool b
  | Json.jnum n => PyVal.vint n
  | Json.jstr s => PyVal.vstr s
  | Json.jarr _ => PyVal.vfloat "<list>"
  | Json.jobj _ => PyVal.vfloat "<dict>"

/-- Python truthiness of a stored stats value. For opaque floats we only need
falsiness of `0.0`, the repr CPython prints for float zero. -/
def PyVal.truthy : PyVal → Bool
  | PyVal.vnone => false
  | PyVal.vbool b => b
  | PyVal.vint n => n ≠ 0
  | PyVal.vstr s => s ≠ ""
  | PyVal.vfloat r => r ≠ "0.0"

/-! ### Decimal rendering of integers (Python `str`) and `format(n, ",")` -/

/-- Decimal digit character of `d` (`d < 10`). -/
def digitChar (d : Nat) : Char := Char.ofNat (48 + d % 10)

/-- Accumulate the decimal digits of `n` in front of `acc`. The first argument
is fuel bounding the number of digits (structural recursion keeps the function
kernel-reducible); `n` itself is always enough fuel. -/
def natDigitsAux : Nat → Nat → List Char → List Char
  | 0, _, acc => acc
  | _, 0, acc => acc
  | fuel+1, n+1, acc => natDigitsAux fuel ((n+1) / 10) (digitChar ((n+1) % 10) :: acc)

/-- Python `str` of a natural number. -/
def pyNatRepr (n : Nat) : String := if n = 0 then "0" else String.mk (natDigitsAux n n [])

/-- Python `str` of an integer. -/
def pyIntRepr (i : Int) : String :=
  if i < 0 then "-" ++ pyNatRepr i.natAbs else pyNatRepr i.natAbs

/-- Insert a thousands separator after every third character of a reversed
digit list (the worker behind Python's `format(n, ",")`). -/
def insertCommasRev : List Char → List Char
  | a :: b :: c :: d :: rest => a :: b :: c :: ',' :: insertCommasRev (d :: rest)
  | l => l

/-- Python `format(n, ",")`: decimal rendering with thousands separators. -/
def pyCommaFmt (i : Int) : String :=
  let digits := (pyNatRepr i.natAbs).data
  (if i < 0 then "-" else "") ++ String.mk (insertCommasRev digits.reverse).reverse

/-- Remove every comma from a string. -/
def stripCommas (s : String) : String := String.mk (s.data.filter (fun c => c ≠ ','))

/-! ### Python string comparison (code-point lexicographic) -/

/-- Lexicographic `≤` on code points, as Python compares `str` values. -/
def charsLe : List Char → List Char → Bool
  | [], _ => true
  | _ :: _, [] => false
  | a :: as, b :: bs =>
      if a.val < b.val then true
      else if b.val < a.val then false
      else charsLe as bs

/-- Python `a <= b` on strings. -/
def pyStrLe (a b : String) : Bool := charsLe a.data b.data

/-- Whitespace for Python `str.strip()` (the ASCII subset; the script only
strips `gh` CLI output). -/
def isPySpace (c : Char) : Bool :=
  c = ' ' ∨ c = '\t' ∨ c = '\n' ∨ c = '\r' ∨ c = '\x0b' ∨ c = '\x0c'

/-- Python `s.strip()`: remove leading and trailing whitespace. -/
def pyStrip (s : String) : String :=
  String.mk (((s.data.dropWhile isPySpace).reverse.dropWhile isPySpace).reverse)

/-- Worker for `splitlines`: split a character list at newlines. -/
def splitLinesAux : List Char → List Char → List (List Char)
  | [], cur => [cur.reverse]
  | '\n' :: rest, cur => cur.reverse :: splitLinesAux rest []
  | c :: rest, cur => splitLinesAux rest (c :: cur)

/-- Python `s.splitlines()` for `\n`-separated text (the only separator `gh`
emits; note Python drops a trailing empty segment, but the caller filters
blank lines anyway so the two agree after that filter). -/
def pySplitLines (s : String) : List String :=
  (splitLinesAux s.data []).map String.mk

/-- Python `s.replace("Z", "+00:00")` — substring replacement specialised to
the single-character pattern this script uses. -/
def replaceZ (s : String) : String :=
  String.mk (s.data.flatMap (fun c => if c = 'Z' then "+00:00".data else [c]))

/-! ### Civil calendar arithmetic (CPython `datetime` internals) -/

/-- Days-since-epoch to (year, month, day), Hinnant's `civil_from_days`. -/
def civilFromDays (z0 : Int) : Int × Int × Int :=
  let z := z0 + 719468
  let era := Int.fdiv z 146097
  let doe := z - era * 146097
  let yoe := Int.fdiv (doe - Int.fdiv doe 1460 + Int.fdiv doe 36524 - Int.fdiv doe 146096) 365
  let y := yoe + era * 400
  let doy := doe - (365 * yoe + Int.fdiv yoe 4 - Int.fdiv yoe 100)
  let mp := Int.fdiv (5 * doy + 2) 153
  let d := doy - Int.fdiv (153 * mp + 2) 5 + 1
  let m := mp + (if mp < 10 then 3 else -9)
  (y + (if m ≤ 2 then 1 else 0), m, d)

/-- (year, month, day) to days since epoch, Hinnant's `days_from_civil`. -/
def daysFromCivil (y0 m d : Int) : Int :=
  let y := y0 - (if m ≤ 2 then 1 else 0)
  let era := Int.fdiv y 400
  let yoe := y - era * 400
  let mp := Int.fmod (m + 9) 12
  let doy := Int.fdiv (153 * mp + 2) 5 + d - 1
  let doe := yoe * 365 + Int.fdiv yoe 4 - Int.fdiv yoe 100 + doy
  era * 146097 + doe - 719468

/-- Gregorian leap-year test. -/
def isLeap (y : Int) : Bool := (Int.fmod y 4 = 0 ∧ Int.fmod y 100 ≠ 0) ∨ Int.fmod y 400 = 0

/-- Number of days in a month. -/
def daysInMonth (y m : Int) : Int :=
  if m = 2 then (if isLeap y then 29 else 28)
  else if m = 4 ∨ m = 6 ∨ m = 9 ∨ m = 11 then 30
  else 31

/-- Zero-pad the decimal rendering of `n` (assumed in `[0, 99]`) to 2 digits. -/
def pad2 (n : Int) : String := if n < 10 then "0" ++ pyIntRepr n else pyIntRepr n

/-- Zero-pad the decimal rendering of `n` (assumed in `[0, 9999]`) to 4 digits. -/
def pad4 (n : Int) : String :=
  if n < 10 then "000" ++ pyIntRepr n
  else if n < 100 then "00" ++ pyIntRepr n
  else if n < 1000 then "0" ++ pyIntRepr n
  else pyIntRepr n

/-- `datetime.isoformat()` of an aware UTC instant with microsecond 0 (the
shape `datetime.now(timezone.utc) - timedelta(days=30)` has in this script, at
the whole-second granularity of the model): `YYYY-MM-DDTHH:MM:SS+00:00`. -/
def isoOfEpoch (t : Int) : String :=
  let days := Int.fdiv t 86400
  let sod := Int.fmod t 86400
  let ymd := civilFromDays days
  pad4 ymd.1 ++ "-" ++ pad2 ymd.2.1 ++ "-" ++ pad2 ymd.2.2 ++ "T" ++
    pad2 (Int.fdiv sod 3600) ++ ":" ++ pad2 (Int.fdiv (Int.fmod sod 3600) 60) ++ ":" ++
    pad2 (Int.fmod sod 60) ++ "+00:00"

/-- `strftime("%Y-%m-%d %H:%M UTC")` of an aware UTC instant, as used for the
dashboard's generation timestamp. -/
def strftimeMinute (t : Int) : String :=
  let days := Int.fdiv t 86400
  let sod := Int.fmod t 86400
  let ymd := civilFromDays days
  pad4 ymd.1 ++ "-" ++ pad2 ymd.2.1 ++ "-" ++ pad2 ymd.2.2 ++ " " ++
    pad2 (Int.fdiv sod 3600) ++ ":" ++ pad2 (Int.fdiv (Int.fmod sod 3600) 60) ++ " UTC"

/-! ### `datetime.fromisoformat` (CPython ≤ 3.10 grammar, the version this
script's `.replace("Z", "+00:00")` shim targets) -/

/-- A parsed `datetime`: naive wall-clock reading in whole seconds since the
epoch plus a microsecond component, and the UTC offset in microseconds when
the string carried one (`none` models a naive datetime). -/
structure PyDateTime where
  wall : Int
  micro : Int
  offset : Option Int
deriving DecidableEq, Repr

/-- Numeric value of a decimal digit character. -/
def digitVal? (c : Char) : Option Nat :=
  if c.isDigit then some (c.toNat - 48) else none

/-- Parse exactly two decimal digits. -/
def parseTwo : List Char → Option (Nat × List Char)
  | a :: b :: rest => do
      let x ← digitVal? a
      let y ← digitVal? b
      pure (10 * x + y, rest)
  | _ => none

/-- Parse exactly four decimal digits. -/
def parseFour : List Char → Option (Nat × List Char)
  | a :: b :: c :: d :: rest => do
      let x ← digitVal? a
      let y ← digitVal? b
      let z ← digitVal? c
      let w ← digitVal? d
      pure (1000 * x + 100 * y + 10 * z + w, rest)
  | _ => none

/-- Value of a list of decimal digit characters (`none` if any non-digit). -/
def digitsVal? : List Char → Option Nat
  | [] => some 0
  | c :: cs => do
      let d ← digitVal? c
      let r ← digitsVal? cs
      pure (d * 10 ^ cs.length + r)

/-- Fractional-second field after the `.`: exactly 3 or 6 digits, giving the
microsecond count (CPython rejects other lengths). -/
def parseFraction (cs : List Char) : Option Nat :=
  if cs.length = 3 then (digitsVal? cs).map (· * 1000)
  else if cs.length = 6 then digitsVal? cs
  else none

/-- Parse `HH[:MM[:SS[.fff[fff]]]]` to (hour, minute, second, microsecond);
the remainder must be empty (CPython's `_parse_hh_mm_ss_ff`). Components are
not range-checked here, matching CPython (the `datetime`/`timedelta`
constructors do that afterwards). -/
def parseTimeComps (cs : List Char) : Option (Nat × Nat × Nat × Nat) := do
  let (h, r1) ← parseTwo cs
  match r1 with
  | [] => pure (h, 0, 0, 0)
  | ':' :: r2 =>
    let (m, r3) ← parseTwo r2
    match r3 with
    | [] => pure (h, m, 0, 0)
    | ':' :: r4 =>
      let (s, r5) ← parseTwo r4
      match r5 with
      | [] => pure (h, m, s, 0)
      | '.' :: r6 => do
        let mu ← parseFraction r6
        pure (h, m, s, mu)
      | _ => none
    | _ => none
  | _ => none

/-- Model of `datetime.fromisoformat` (CPython ≤ 3.10): exactly
`YYYY-MM-DD[<any-sep>HH[:MM[:SS[.fff[fff]]]][±HH:MM[:SS[.ffffff]]]]`, with the
range checks the `datetime`/`timezone` constructors perform. Returns `none`
where CPython raises `ValueError`. -/
def fromisoformat (s : String) : Option PyDateTime := do
  let cs := s.data
  let (y, r1) ← parseFour cs
  let r2 ← match r1 with | '-' :: r => some r | _ => none
  let (mo, r3) ← parseTwo r2
  let r4 ← match r3 with | '-' :: r => some r | _ => none
  let (d, r5) ← parseTwo r4
  if y < 1 ∨ 9999 < y then none else
  if mo < 1 ∨ 12 < mo then none else
  if d < 1 ∨ daysInMonth y mo < (d : Int) then none else
  let dayWall : Int := daysFromCivil (y : Int) (mo : Int) (d : Int) * 86400
  match r5 with
  | [] => pure { wall := dayWall, micro := 0, offset := none }
  | _sep :: tcs =>
    -- CPython slices the time-of-day from the offset at the first `-` or `+`.
    let timePart := tcs.takeWhile (fun c => c ≠ '+' ∧ c ≠ '-')
    let tzPart := tcs.dropWhile (fun c => c ≠ '+' ∧ c ≠ '-')
    let (h, mi, sec, mu) ← parseTimeComps timePart
    if 23 < h ∨ 59 < mi ∨ 59 < sec then none else
    let wall := dayWall + (h : Int) * 3600 + (mi : Int) * 60 + (sec : Int)
    match tzPart with
    | [] => pure { wall := wall, micro := (mu : Int), offset := none }
    | signChar :: tzcs =>
      -- CPython requires the offset body to be `HH:MM[:SS[.ffffff]]`.
      if tzcs.length ≠ 5 ∧ tzcs.length ≠ 8 ∧ tzcs.length ≠ 15 then none else
      let (th, tm, ts, tmu) ← parseTimeComps tzcs
      let mag : Int := ((th : Int) * 3600 + (tm : Int) * 60 + (ts : Int)) * 1000000 + (tmu : Int)
      let off : Int := if signChar = '-' then -mag else mag
      -- `timezone` requires the offset strictly between -24h and +24h.
      if mag < 86400000000 then
        pure { wall := wall, micro := (mu : Int), offset := some off }
      else none

/-! ### `format_date` (source lines 114-136) -/

/-- Relative label computed from an elapsed time in microseconds, following the
`timedelta` normalisation (`days` floors, `seconds` is the non-negative
remainder below one day). -/
def relativeLabel (deltaMu : Int) : String :=
  let days := Int.fdiv deltaMu 86400000000
  if days = 0 then
    let hours := Int.fdiv (Int.fmod deltaMu 86400000000) 3600000000
    if 0 < hours then pyIntRepr hours ++ "h ago" else "just now"
  else if days < 30 then pyIntRepr days ++ "d ago"
  else if days < 365 then pyIntRepr (Int.fdiv days 30) ++ "mo ago"
  else pyIntRepr (Int.fdiv days 365) ++ "y ago"

/-- `strftime("%Y-%m-%d")` of the naive wall-clock reading of a parsed
datetime (the non-relative branch of `format_date`). -/
def strftimeDate (dt : PyDateTime) : String :=
  let ymd := civilFromDays (Int.fdiv dt.wall 86400)
  pad4 ymd.1 ++ "-" ++ pad2 ymd.2.1 ++ "-" ++ pad2 ymd.2.2

/-- Embedding of `format_date` (source lines 114-136). `now` is the whole
second read from `datetime.now(timezone.utc)` inside the function. A falsy
argument short-circuits to the placeholder; a non-string truthy argument hits
`AttributeError` on `.replace`, which the `except` clause catches; a string
that fails `fromisoformat` hits the caught `ValueError`; but in the relative
branch a string that parses *naive* (no UTC offset) makes `now - dt` raise
`TypeError`, which is not caught. -/
def format_date (v : PyVal) (now : Int) (relative : Bool) : Except String String :=
  if !v.truthy then Except.ok "—"
  else match v with
    | PyVal.vstr s =>
      match fromisoformat (replaceZ s) with
      | none => Except.ok "—"
      | some dt =>
        if relative then
          match dt.offset with
          | none => Except.error "TypeError"
          | some off => Except.ok (relativeLabel (now * 1000000 - (dt.wall * 1000000 + dt.micro - off)))
        else Except.ok (strftimeDate dt)
    | _ => Except.ok "—"

/-! ### API client (source lines 34-90) -/

/-- Outcome of one `subprocess.run` invocation of `gh api`: either the process
completed (with exit code, stdout and stderr captured as text) or the 30s
timeout expired (`subprocess.TimeoutExpired`). -/
inductive RunOutcome where
  | completed : Int → String → String → RunOutcome
  | timedOut : RunOutcome
deriving DecidableEq, Repr

/-- Test that the first list is a prefix of the second. -/
def charsPrefixOf : List Char → List Char → Bool
  | [], _ => true
  | _ :: _, [] => false
  | a :: as, b :: bs => a = b && charsPrefixOf as bs

/-- Test that `needle` occurs as a contiguous run inside `hay`. -/
def charsInfixOf (needle : List Char) : List Char → Bool
  | [] => needle.isEmpty
  | c :: rest => charsPrefixOf needle (c :: rest) || charsInfixOf needle rest

/-- Python `"202" in stderr` substring test. -/
def contains202 (stderr : String) : Bool :=
  charsInfixOf "202".data stderr.data

/-- Embedding of `gh_api` (source lines 34-64), parameterised by the external
`json.loads` (`loads s = none` models `json.JSONDecodeError`) and by the
transport outcome: `none` models `CalledProcessError`/`TimeoutExpired` from
the checked `subprocess.run`, `some stdout` a zero-exit run. -/
def gh_api (loads : String → Option Json) (transport : Option String) : Option Json :=
  match transport with
  | none => none
  | some stdout =>
    let text := pyStrip stdout
    if text = "" then none
    else
      match loads text with
      | some v => some v
      | none =>
        let lines := (pySplitLines text).filter (fun line => pyStrip line ≠ "")
        let merged := lines.foldl (fun acc line =>
          match loads line with
          | some (Json.jarr xs) => acc ++ xs
          | some v => acc ++ [v]
          | none => acc) []
        if merged.isEmpty then none else some (Json.jarr merged)

/-- Worker for `gh_api_single`'s `for attempt in range(retries)` loop. Returns
the result together with the number of attempts actually made. `run i` is the
outcome of the `(i+1)`-th `subprocess.run`; the 5-second `time.sleep` between
attempts is real time and has no observable effect modelled here. The `fuel`
argument only makes the recursion structural (hence kernel-reducible); it is
kept at `retries - attempt`, so the fuel-exhausted branch coincides with the
loop running out of range. -/
def ghApiSingleLoop (loads : String → Option Json) (run : Nat → RunOutcome)
    (retries : Nat) : Nat → Nat → Option Json × Nat
  | 0, attempt => (none, attempt)
  | fuel+1, attempt =>
    if attempt < retries then
      match run attempt with
      | RunOutcome.timedOut => (none, attempt + 1)
      | RunOutcome.completed rc out err =>
        if rc ≠ 0 then
          if contains202 err ∨ pyStrip out = "" then
            if attempt < retries - 1 then ghApiSingleLoop loads run retries fuel (attempt + 1)
            else (none, attempt + 1)
          else (none, attempt + 1)
        else
          if pyStrip out ≠ "" then
            match loads out with
            | some v => (some v, attempt + 1)
            | none => (none, attempt + 1)
          else (none, attempt + 1)
    else (none, attempt)

/-- Embedding of `gh_api_single` (source lines 67-90): result value and number
of attempts made. The script calls it with the default `retries = 3`. -/
def gh_api_single (loads : String → Option Json) (run : Nat → RunOutcome)
    (retries : Nat) : Option Json × Nat :=
  ghApiSingleLoop loads run retries retries 0

/-- Embedding of `count_list` (source lines 93-95). -/
def count_list (data : Option Json) : Int := (Json.asList data).length

/-- Embedding of `ci_emoji` (source lines 98-111). The stored status value is
looked up as `mapping.get(conclusion or "", "❓")`; the `None` key of the
source dict is unreachable because `conclusion or ""` is never `None`. -/
def ci_emoji (conclusion : PyVal) : String :=
  let mapping : List (String × String) :=
    [("success", "✅"), ("failure", "❌"), ("cancelled", "⚫"), ("skipped", "⏭️"),
     ("timed_out", "⏱️"), ("action_required", "⚠️"), ("neutral", "⚪"),
     ("in_progress", "🔄"), ("queued", "🕐")]
  match (if conclusion.truthy then conclusion else PyVal.vstr "") with
  | PyVal.vstr s => ((mapping.find? (fun p => p.1 = s)).map (·.2)).getD "❓"
  | _ => "❓"

/-! ### Stats aggregator (source lines 139-253) -/

/-- The per-provider stats dict. One `Option PyVal` per key the script ever
writes or reads; `none` models a missing key (the dict for a provider whose
aggregation raised is empty, see `main`). -/
structure StatsRecord where
  pr_open : Option PyVal := none
  pr_draft : Option PyVal := none
  pr_merged_30d : Option PyVal := none
  issues_open : Option PyVal := none
  bugs : Option PyVal := none
  enhancements : Option PyVal := none
  incidents : Option PyVal := none
  ci_status : Option PyVal := none
  ci_date : Option PyVal := none
  last_release : Option PyVal := none
  last_release_date : Option PyVal := none
  commits_30d : Option PyVal := none
  last_commit : Option PyVal := none
  contributors : Option PyVal := none
  additions_30d : Option PyVal := none
  deletions_30d : Option PyVal := none
  py_files : Option PyVal := none
  code_size_kb : Option PyVal := none
deriving DecidableEq, Repr

/-- The empty stats dict `{}`. -/
def emptyStats : StatsRecord := {}

/-- Providers skipped in the CI status check (source line 31). -/
def CI_SKIP_WORKFLOW : List String := ["server_fork"]

/-- One `gh api` invocation issued by `get_provider_stats`, tagged by call
site and carrying the request path. -/
inductive ApiCall where
  | pullsOpen : String → ApiCall
  | pullsClosed : String → ApiCall
  | issuesOpen : String → ApiCall
  | ciRuns : String → ApiCall
  | releaseLatest : String → ApiCall
  | commits : String → ApiCall
  | lastCommit : String → ApiCall
  | contributorsList : String → ApiCall
  | codeFreq : String → ApiCall
  | treeList : String → ApiCall
deriving DecidableEq, Repr

/-- Bump key `k` in the label-count dict (`label_counts[name] =
label_counts.get(name, 0) + 1`). -/
def bumpKey : List (Json × Int) → Json → List (Json × Int)
  | [], k => [(k, 1)]
  | (k', n) :: rest, k =>
      if Json.scalarEq k' k then (k', n + 1) :: rest else (k', n) :: bumpKey rest k

/-- The label tally of source lines 166-170: iterate every label of every
filtered issue, keyed by `label.get("name", "")`. -/
def labelTally (issues : List Json) : List (Json × Int) :=
  issues.foldl (fun acc issue =>
    (Json.asList (Json.objGet issue "labels")).foldl (fun acc2 label =>
      bumpKey acc2 ((Json.objGet label "name").getD (Json.jstr ""))) acc) []

/-- Dict lookup `label_counts.get(name, 0)`. -/
def tallyGet (t : List (Json × Int)) (name : String) : Int :=
  ((t.find? (fun p => Json.scalarEq p.1 (Json.jstr name))).map (·.2)).getD 0

/-- The merged-PR filter of source lines 152-154: `p.get("merged_at") and
p["merged_at"] >= since_30d` (a truthy merge timestamp, compared to the window
start as a string). -/
def mergedInWindow (since_30d : String) (p : Json) : Bool :=
  match Json.objGet p "merged_at" with
  | some (Json.jstr s) => s ≠ "" && pyStrLe since_30d s
  | _ => false

/-- The trailing window of the code-frequency series (source line 228):
`code_freq[-4:] if len(code_freq) >= 4 else code_freq`. -/
def codeFreqRecent (l : List Json) : List Json :=
  if 4 ≤ l.length then l.drop (l.length - 4) else l

/-- Component `idx` of a code-frequency entry, for entries passing the
`isinstance(w, list) and len(w) >= 3` guard. -/
def freqComp (idx : Nat) (w : Json) : Option Int :=
  match w with
  | Json.jarr ws => if 3 ≤ ws.length then some (Json.asInt ((ws.get? idx).getD Json.jnull)) else none
  | _ => none

/-- `stats["additions_30d"]` for a non-empty code-frequency list (source
lines 229-231). -/
def codeFreqAdditions (l : List Json) : Int :=
  ((codeFreqRecent l).filterMap (freqComp 1)).sum

/-- `stats["deletions_30d"]` for a non-empty code-frequency list (source
lines 232-234): the absolute value is taken of the *sum*. -/
def codeFreqDeletions (l : List Json) : Int :=
  |((codeFreqRecent l).filterMap (freqComp 2)).sum|

/-- The Python-file filter of source lines 242-246:
`f.get("type") == "blob" and f.get("path", "").endswith(".py")`. -/
def isPyBlob (f : Json) : Bool :=
  (match Json.objGet f "type" with
   | some (Json.jstr t) => t = "blob"
   | _ => false) &&
  (match Json.objGet f "path" with
   | some (Json.jstr p) => p.endsWith ".py"
   | _ => false)

/-- `f.get("size", 0)` of a tree blob entry. -/
def blobSize (f : Json) : Int :=
  match Json.objGet f "size" with
  | some (Json.jnum n) => n
  | _ => 0

/-- Embedding of `get_provider_stats` (source lines 139-253). `api` and
`apiSingle` are the post-client oracles giving what `gh_api` / `gh_api_single`
return for each request path; `roundKB` is the opaque float computation
`round(total_size / 1024, 1)` (see the header on floats); `now` is the whole
second `datetime.now(timezone.utc)` read at function entry. Returns the stats
dict together with the ordered list of API calls issued. -/
def get_provider_stats (api apiSingle : String → Option Json) (roundKB : Int → PyVal)
    (repo provider_type : String) (now : Int) : StatsRecord × List ApiCall :=
  let since_30d := isoOfEpoch (now - 2592000)
  -- PRs
  let pPullsOpen := "/repos/" ++ repo ++ "/pulls?state=open&per_page=100"
  let pulls_list := Json.asList (api pPullsOpen)
  let vPrOpen := PyVal.vint pulls_list.length
  let vPrDraft := PyVal.vint (pulls_list.countP (fun p => optTruthy (Json.objGet p "draft")))
  let pPullsClosed := "/repos/" ++ repo ++ "/pulls?state=closed&per_page=100"
  let closed_list := Json.asList (api pPullsClosed)
  let vPrMerged := PyVal.vint (closed_list.countP (mergedInWindow since_30d))
  -- Issues
  let pIssues := "/repos/" ++ repo ++ "/issues?state=open&per_page=100"
  let issues_list := (Json.asList (api pIssues)).filter (fun i => !(Json.objHas i "pull_request"))
  let vIssuesOpen := PyVal.vint issues_list.length
  let lc := labelTally issues_list
  let vBugs := PyVal.vint (tallyGet lc "type:bug")
  let vEnh := PyVal.vint (tallyGet lc "type:enhancement")
  let vInc := PyVal.vint (tallyGet lc "incident:ci")
  -- CI status (test.yml, latest run)
  let pCi := "/repos/" ++ repo ++ "/actions/workflows/test.yml/runs?per_page=1"
  let ciPart :=
    if !(CI_SKIP_WORKFLOW.contains provider_type) then
      let ci_data := apiSingle pCi
      let statusDate :=
        match ci_data with
        | some cd =>
          if cd.truthy then
            match Json.objGet cd "workflow_runs" with
            | some (Json.jarr (rn :: rest)) =>
              let _ := rest
              let conclusion := pyOr (Json.objGet rn "conclusion") (Json.objGet rn "status")
              (conclusion.toPyVal, ((Json.objGet rn "updated_at").getD Json.jnull).toPyVal)
            | _ => (PyVal.vnone, PyVal.vnone)
          else (PyVal.vnone, PyVal.vnone)
        | none => (PyVal.vnone, PyVal.vnone)
      (statusDate.1, statusDate.2, [ApiCall.ciRuns pCi])
    else (PyVal.vstr "n/a", PyVal.vnone, ([] : List ApiCall))
  -- Last release
  let pRel := "/repos/" ++ repo ++ "/releases/latest"
  let release := apiSingle pRel
  let relPart :=
    match release with
    | some r =>
      if r.truthy && (match r with | Json.jobj _ => true | _ => false) && Json.objHas r "tag_name" then
        (((Json.objGet r "tag_name").getD Json.jnull).toPyVal,
         ((Json.objGet r "published_at").getD Json.jnull).toPyVal)
      else (PyVal.vnone, PyVal.vnone)
    | none => (PyVal.vnone, PyVal.vnone)
  -- Commits (30d)
  let pCommits := "/repos/" ++ repo ++ "/commits?since=" ++ since_30d ++ "&per_page=100"
  let vCommits := PyVal.vint (Json.asList (api pCommits)).length
  -- Last commit
  let pLast := "/repos/" ++ repo ++ "/commits?per_page=1"
  let vLastCommit :=
    match apiSingle pLast with
    | some (Json.jarr (c :: _)) =>
      let commit := (Json.objGet c "commit").getD (Json.jobj [])
      let committerDate := Json.objGet ((Json.objGet commit "committer").getD (Json.jobj [])) "date"
      let authorDate := Json.objGet ((Json.objGet commit "author").getD (Json.jobj [])) "date"
      (pyOr committerDate authorDate).toPyVal
    | _ => PyVal.vnone
  -- Contributors
  let pContrib := "/repos/" ++ repo ++ "/contributors?per_page=100&anon=0"
  let vContrib := PyVal.vint (count_list (api pContrib))
  -- Code frequency (additions/deletions last 4 weeks)
  let pFreq := "/repos/" ++ repo ++ "/stats/code_frequency"
  let freqPart :=
    match apiSingle pFreq with
    | some (Json.jarr (w :: ws)) =>
      (PyVal.vint (codeFreqAdditions (w :: ws)), PyVal.vint (codeFreqDeletions (w :: ws)))
    | _ => (PyVal.vint 0, PyVal.vint 0)
  -- Python file count (via git tree)
  let pTree := "/repos/" ++ repo ++ "/git/trees/HEAD?recursive=1"
  let treePart :=
    match apiSingle pTree with
    | some t =>
      if t.truthy then
        match Json.objGet t "tree" with
        | some (Json.jarr entries) =>
          let pyBlobs := entries.filter isPyBlob
          (PyVal.vint pyBlobs.length, roundKB (pyBlobs.map blobSize).sum)
        | _ => (PyVal.vint 0, PyVal.vint 0)
      else (PyVal.vint 0, PyVal.vint 0)
    | none => (PyVal.vint 0, PyVal.vint 0)
  let record : StatsRecord :=
    { pr_open := some vPrOpen
      pr_draft := some vPrDraft
      pr_merged_30d := some vPrMerged
      issues_open := some vIssuesOpen
      bugs := some vBugs
      enhancements := some vEnh
      incidents := some vInc
      ci_status := some ciPart.1
      ci_date := some ciPart.2.1
      last_release := some relPart.1
      last_release_date := some relPart.2
      commits_30d := some vCommits
      last_commit := some vLastCommit
      contributors := some vContrib
      additions_30d := some freqPart.1
      deletions_30d := some freqPart.2
      py_files := some treePart.1
      code_size_kb := some treePart.2 }
  let calls : List ApiCall :=
    [ApiCall.pullsOpen pPullsOpen, ApiCall.pullsClosed pPullsClosed, ApiCall.issuesOpen pIssues]
      ++ ciPart.2.2
      ++ [ApiCall.releaseLatest pRel, ApiCall.commits pCommits, ApiCall.lastCommit pLast,
          ApiCall.contributorsList pContrib, ApiCall.codeFreq pFreq, ApiCall.treeList pTree]
  (record, calls)

/-! ### Snapshot exporter (source lines 256-388) -/

/-- A registry entry from `providers.yml`, with the fields this script reads.
`none` models a missing optional key. -/
structure Provider where
  repo : String
  domain : String
  display_name : Option String
  provider_type : Option String
deriving DecidableEq, Repr

/-- `all_stats.get(repo, {})`. -/
def statsFor (allStats : List (String × StatsRecord)) (repo : String) : StatsRecord :=
  ((allStats.find? (fun q => q.1 = repo)).map (·.2)).getD emptyStats

/-- Python `str` of a stored stats value, as an f-string renders it. -/
def strOfPyVal : PyVal → String
  | PyVal.vnone => "None"
  | PyVal.vbool b => if b then "True" else "False"
  | PyVal.vint n => pyIntRepr n
  | PyVal.vstr s => s
  | PyVal.vfloat r => r

/-- Rendering of `s.get(k, "?")` inside an f-string. -/
def cellGet (f : Option PyVal) : String :=
  match f with
  | none => "?"
  | some v => strOfPyVal v

/-- Python `format(v, ",")` as applied by the `f"{...:,}"` cells. A stored
`None` raises `TypeError`, a string raises `ValueError`; a bool formats as an
integer (bools are ints in Python); grouping of opaque floats is not modelled
(this script only ever formats ints this way). -/
def pyFormatComma : PyVal → Except String String
  | PyVal.vint n => Except.ok (pyCommaFmt n)
  | PyVal.vbool b => Except.ok (if b then "1" else "0")
  | PyVal.vfloat r => Except.ok r
  | PyVal.vnone => Except.error "TypeError"
  | PyVal.vstr _ => Except.error "ValueError"

/-- The `ptype_short` lookup table (source lines 286-290). -/
def typeShort (t : String) : String :=
  if t = "music_provider" then "🎵 Music"
  else if t = "player_provider" then "🔊 Player"
  else if t = "server_fork" then "🔧 Fork"
  else t

/-- The CI cell of the first table (source lines 293-299). -/
def ciCellOf (s : StatsRecord) (nowR : Int) : Except String String :=
  let ci_raw := s.ci_status.getD PyVal.vnone
  if ci_raw = PyVal.vstr "n/a" then Except.ok "—"
  else
    let base := ci_emoji ci_raw
    let cd := s.ci_date.getD PyVal.vnone
    if cd.truthy then do
      let d ← format_date cd nowR true
      pure (base ++ " " ++ d)
    else Except.ok base

/-- The release cell of the first table (source lines 301-303). -/
def releaseCellOf (s : StatsRecord) (nowR : Int) : Except String String :=
  let lr := s.last_release.getD PyVal.vnone
  let rel0 : PyVal := if lr.truthy then lr else PyVal.vstr "—"
  let lrd := s.last_release_date.getD PyVal.vnone
  if rel0 = PyVal.vstr "—" then Except.ok (strOfPyVal rel0)
  else if lrd.truthy then do
    let d ← format_date lrd nowR true
    pure (strOfPyVal rel0 ++ " (" ++ d ++ ")")
  else Except.ok (strOfPyVal rel0)

/-- The running totals dict (source lines 271-279). -/
structure Totals where
  pr_open : Int
  pr_draft : Int
  pr_merged_30d : Int
  bugs : Int
  enhancements : Int
  incidents : Int
  issues_open : Int
deriving DecidableEq, Repr

/-- The totals dict initialised to all zeros. -/
def initTotals : Totals := ⟨0, 0, 0, 0, 0, 0, 0⟩

/-- Contribution of one stats field to its total:
`s.get(k, 0) if isinstance(s.get(k), int) else 0` (source line 321). Python
bools are ints, so a stored bool contributes its integer value; anything else
non-int contributes nothing. -/
def intContrib (f : Option PyVal) : Int :=
  match f with
  | some (PyVal.vint n) => n
  | some (PyVal.vbool b) => if b then 1 else 0
  | _ => 0

/-- One provider's update of the totals dict (the `for k in totals` loop at
source lines 320-321). -/
def totalsStep (t : Totals) (s : StatsRecord) : Totals :=
  { pr_open := t.pr_open + intContrib s.pr_open
    pr_draft := t.pr_draft + intContrib s.pr_draft
    pr_merged_30d := t.pr_merged_30d + intContrib s.pr_merged_30d
    bugs := t.bugs + intContrib s.bugs
    enhancements := t.enhancements + intContrib s.enhancements
    incidents := t.incidents + intContrib s.incidents
    issues_open := t.issues_open + intContrib s.issues_open }

/-- The totals accumulated over the whole provider loop. The source interleaves
this accumulation with building the table rows; the two are disentangled here
(same per-provider contribution, same order). -/
def computeTotals (rs : List StatsRecord) : Totals := rs.foldl totalsStep initTotals

/-- The trailing totals row (source lines 323-333). -/
def totalsRowStr (t : Totals) : String :=
  "| **Total** | — | **" ++ pyIntRepr t.pr_open ++ "** | **" ++ pyIntRepr t.pr_draft ++
    "** | **" ++ pyIntRepr t.pr_merged_30d ++ "** | **" ++ pyIntRepr t.bugs ++
    "** | **" ++ pyIntRepr t.enhancements ++ "** | **" ++ pyIntRepr t.incidents ++
    "** | **" ++ pyIntRepr t.issues_open ++ "** | — | — |"

/-- One data row of the "PRs & Issues" table (source lines 281-318). -/
def row1 (nowR : Int) (allStats : List (String × StatsRecord)) (p : Provider) :
    Except String String := do
  let s := statsFor allStats p.repo
  let name := p.display_name.getD p.domain
  let ptype := (p.provider_type.getD "")
  let repo_url := "https://github.com/" ++ p.repo
  let ciCell ← ciCellOf s nowR
  let relCell ← releaseCellOf s nowR
  pure ("| [" ++ name ++ "](" ++ repo_url ++ ") | " ++ typeShort ptype ++ " | " ++
    cellGet s.pr_open ++ " | " ++ cellGet s.pr_draft ++ " | " ++ cellGet s.pr_merged_30d ++
    " | " ++ cellGet s.bugs ++ " | " ++ cellGet s.enhancements ++ " | " ++
    cellGet s.incidents ++ " | " ++ cellGet s.issues_open ++ " | " ++ ciCell ++ " | " ++
    relCell ++ " |")

/-- One data row of the "Codebase" table (source lines 348-358). -/
def row2 (allStats : List (String × StatsRecord)) (p : Provider) : String :=
  let s := statsFor allStats p.repo
  let name := p.display_name.getD p.domain
  let repo_url := "https://github.com/" ++ p.repo
  "| [" ++ name ++ "](" ++ repo_url ++ ") | " ++ cellGet s.py_files ++ " | " ++
    cellGet s.code_size_kb ++ " KB | " ++ cellGet s.contributors ++ " |"

/-- One data row of the "Development Intensity" table (source lines 373-384). -/
def row3 (nowR : Int) (allStats : List (String × StatsRecord)) (p : Provider) :
    Except String String := do
  let s := statsFor allStats p.repo
  let name := p.display_name.getD p.domain
  let repo_url := "https://github.com/" ++ p.repo
  let lastCommitCell ← format_date (s.last_commit.getD PyVal.vnone) nowR true
  let addCell ← pyFormatComma (s.additions_30d.getD (PyVal.vint 0))
  let delCell ← pyFormatComma (s.deletions_30d.getD (PyVal.vint 0))
  pure ("| [" ++ name ++ "](" ++ repo_url ++ ") | " ++ cellGet s.commits_30d ++ " | " ++
    lastCommitCell ++ " | +" ++ addCell ++ " | -" ++ delCell ++ " |")

/-- The fixed lines preceding the first table (source lines 258-269). -/
def headerLines (nowR : Int) : List String :=
  ["# Provider Dashboard", "", "*Last updated: " ++ strftimeMinute nowR ++ "*", "", "---", "",
   "## PRs & Issues", "",
   "| Provider | Type | Open PRs | Draft | Merged 30d | 🐛 Bugs | 💡 Enhance | 🚨 CI Incidents | Issues | CI Status | Last Release |",
   "|----------|------|:--------:|:-----:|:----------:|:-------:|:----------:|:---------------:|:------:|:---------:|:------------:|"]

/-- The fixed lines opening the "Codebase" section (source lines 337-346). -/
def codebaseHeader : List String :=
  ["---", "", "## Codebase", "",
   "| Provider | 🐍 Python Files | 📦 Code Size | 👥 Contributors |",
   "|----------|:--------------:|:------------:|:---------------:|"]

/-- The fixed lines opening the "Development Intensity" section (source lines
361-371). -/
def intensityHeader : List String :=
  ["", "---", "", "## Development Intensity (last 30 days)", "",
   "| Provider | 📝 Commits | Last Commit | ➕ Additions | ➖ Deletions |",
   "|----------|:----------:|:-----------:|:------------:|:------------:|"]

/-- The `lines` list built by `render_dashboard` (source lines 256-386).
`nowR` is the whole second of the render-time clock; the `datetime.now` calls
inside `format_date` during rendering are taken at this same instant (the
model's clock granularity is one reading per aggregation step plus one for the
whole render). An `error` result models an uncaught exception escaping
`render_dashboard`. -/
def dashboard_lines (nowR : Int) (providers : List Provider)
    (allStats : List (String × StatsRecord)) : Except String (List String) := do
  let rows1 ← providers.mapM (row1 nowR allStats)
  let totals := computeTotals (providers.map (fun p => statsFor allStats p.repo))
  let rows2 := providers.map (row2 allStats)
  let rows3 ← providers.mapM (row3 nowR allStats)
  pure (headerLines nowR ++ rows1 ++ ["", totalsRowStr totals, ""] ++ codebaseHeader ++
    rows2 ++ intensityHeader ++ rows3 ++ ["", "---", ""])

/-- Embedding of `render_dashboard`: `"\n".join(lines) + "\n"`. -/
def render_dashboard (nowR : Int) (providers : List Provider)
    (allStats : List (String × StatsRecord)) : Except String String := do
  let lines ← dashboard_lines nowR providers allStats
  pure (String.intercalate "\n" lines ++ "\n")

/-! ### The run (source lines 391-423) -/

/-- The stats-collection loop of `main` (source lines 404-418). `clock i` is
the whole second at which the `i`-th provider's `get_provider_stats` starts —
each call re-reads the wall clock, which is the point settled by C6. The
per-provider `except` that replaces a raising provider with `{}` is outside
the model (no aggregator exception is representable here). -/
def collect_stats (api apiSingle : String → Option Json) (roundKB : Int → PyVal)
    (clock : Nat → Int) (providers : List Provider) : List (String × StatsRecord) :=
  providers.enum.map (fun ip =>
    (ip.2.repo,
     (get_provider_stats api apiSingle roundKB ip.2.repo (ip.2.provider_type.getD "") (clock ip.1)).1))

/-- A whole run: collect stats per provider (clock readings `0..n-1`), then
render (clock reading `n`, the dashboard's "Last updated" timestamp). -/
def run_dashboard (api apiSingle : String → Option Json) (roundKB : Int → PyVal)
    (clock : Nat → Int) (providers : List Provider) : Except String String :=
  render_dashboard (clock providers.length) providers
    (collect_stats api apiSingle roundKB clock providers)

/-! ### Structured-record rendering (spec §4.3, second output format) -/

/-- Modelled from the spec: the JSON serialization of one canonical stats
field in the structured-record rendering. The repository's second,
JSON-format driver is not among the provided sources; per spec §4.3 it
"serializes the canonical fields verbatim, with null standing in for
'absent' (as opposed to 0, which is a genuine zero count)". -/
def structuredFieldStr : Option PyVal → String
  | none => "null"
  | some PyVal.vnone => "null"
  | some (PyVal.vint n) => pyIntRepr n
  | some (PyVal.vbool b) => if b then "true" else "false"
  | some (PyVal.vstr s) => "\"" ++ s ++ "\""
  | some (PyVal.vfloat r) => r

/-- Modelled from the spec: the structured-record object for one provider,
serializing the canonical fields verbatim (field names from spec §3). -/
def structuredRecord (s : StatsRecord) : List (String × String) :=
  [("pr_open", structuredFieldStr s.pr_open),
   ("pr_draft", structuredFieldStr s.pr_draft),
   ("pr_merged_30d", structuredFieldStr s.pr_merged_30d),
   ("issues_open", structuredFieldStr s.issues_open),
   ("bugs", structuredFieldStr s.bugs),
   ("enhancements", structuredFieldStr s.enhancements),
   ("incidents", structuredFieldStr s.incidents),
   ("ci_status", structuredFieldStr s.ci_status),
   ("ci_date", structuredFieldStr s.ci_date),
   ("last_release", structuredFieldStr s.last_release),
   ("last_release_date", structuredFieldStr s.last_release_date),
   ("commits_30d", structuredFieldStr s.commits_30d),
   ("last_commit", structuredFieldStr s.last_commit),
   ("contributors", structuredFieldStr s.contributors),
   ("additions_30d", structuredFieldStr s.additions_30d),
   ("deletions_30d", structuredFieldStr s.deletions_30d),
   ("py_files", structuredFieldStr s.py_files),
   ("code_size_kb", structuredFieldStr s.code_size_kb)]

/-- Modelled from the spec: the array of per-provider structured records (one
object per descriptor, registry order). -/
def structured_records (providers : List Provider)
    (allStats : List (String × StatsRecord)) : List (List (String × String)) :=
  providers.map (fun p => structuredRecord (statsFor allStats p.repo))

/-! ### Shared list lemmas -/

/-- The sum of absolute values of a list of non-positive integers is the
negation of its (non-positive) sum. -/
theorem sum_abs_of_nonpos : ∀ (l : List Int), (∀ x ∈ l, x ≤ 0) →
    (l.map (fun x => |x|)).sum = -l.sum ∧ l.sum ≤ 0 := by
  intro l
  induction l with
  | nil => intro _; simp
  | cons a t ih =>
    intro h
    have ha : a ≤ 0 := h a (List.mem_cons_self a t)
    obtain ⟨h1, h2⟩ := ih (fun x hx => h x (List.mem_cons_of_mem _ hx))
    refine ⟨?_, ?_⟩
    · simp only [List.map_cons, List.sum_cons, h1, abs_of_nonpos ha]
      ring
    · simp only [List.sum_cons]
      omega

/-! ### C4: code-frequency window -/

/-- A well-formed code-frequency entry `[week, additions, deletions]`. -/
def tripleJson (w : Int × Int × Int) : Json :=
  Json.jarr [Json.jnum w.1, Json.jnum w.2.1, Json.jnum w.2.2]

/-- The conditional trailing window equals an unconditional `drop` (for short
lists `length - 4 = 0` in `Nat`). -/
theorem codeFreqRecent_eq_drop (l : List Json) :
    codeFreqRecent l = l.drop (l.length - 4) := by
  by_cases h : 4 ≤ l.length
  · simp [codeFreqRecent, h]
  · simp [codeFreqRecent, h, Nat.sub_eq_zero_of_le (Nat.le_of_not_le h)]

/-- The window of an embedded series is the embedded window. -/
theorem codeFreqRecent_map (ts : List (Int × Int × Int)) :
    codeFreqRecent (ts.map tripleJson) = (ts.drop (ts.length - 4)).map tripleJson := by
  rw [codeFreqRecent_eq_drop, List.length_map, List.map_drop]

/-- C4 (amended): on every series of (week, additions, deletions) triples,
only the trailing 4 entries (all entries when shorter) contribute; the
additions value is the sum of their additions; the deletions value is the
absolute value of the *sum* of their deletions — hence non-negative, and equal
to the sum of absolute values exactly in the all-non-positive case the GitHub
API produces. -/
theorem c4_code_frequency_window (ts : List (Int × Int × Int)) :
    codeFreqAdditions (ts.map tripleJson) =
      ((ts.drop (ts.length - 4)).map (fun w => w.2.1)).sum ∧
    codeFreqDeletions (ts.map tripleJson) =
      |((ts.drop (ts.length - 4)).map (fun w => w.2.2)).sum| ∧
    0 ≤ codeFreqDeletions (ts.map tripleJson) ∧
    ((∀ w ∈ ts, w.2.2 ≤ 0) →
      codeFreqDeletions (ts.map tripleJson) =
        ((ts.drop (ts.length - 4)).map (fun w => |w.2.2|)).sum) := by
  have hcomp1 : (freqComp 1 ∘ tripleJson) = some ∘ (fun w : Int × Int × Int => w.2.1) :=
    funext (fun w => rfl)
  have hcomp2 : (freqComp 2 ∘ tripleJson) = some ∘ (fun w : Int × Int × Int => w.2.2) :=
    funext (fun w => rfl)
  have hadd : codeFreqAdditions (ts.map tripleJson) =
      ((ts.drop (ts.length - 4)).map (fun w => w.2.1)).sum := by
    unfold codeFreqAdditions
    rw [codeFreqRecent_map, List.filterMap_map, hcomp1, List.filterMap_eq_map]
  have hdel : codeFreqDeletions (ts.map tripleJson) =
      |((ts.drop (ts.length - 4)).map (fun w => w.2.2)).sum| := by
    unfold codeFreqDeletions
    rw [codeFreqRecent_map, List.filterMap_map, hcomp2, List.filterMap_eq_map]
  refine ⟨hadd, hdel, ?_, ?_⟩
  · rw [hdel]; exact abs_nonneg _
  · intro h
    have key := sum_abs_of_nonpos ((ts.drop (ts.length - 4)).map (fun w => w.2.2))
      (by
        intro x hx
        obtain ⟨w, hw, rfl⟩ := List.mem_map.mp hx
        exact h w (List.drop_subset _ _ hw))
    rw [hdel, abs_of_nonpos key.2, ← key.1, List.map_map]
    rfl

/-- The two-entry series refuting C4 as stated. -/
def c4series : List (Int × Int × Int) := [(0, 1, -5), (1, 2, 3)]

/-- C4 counterexample: on the series with deletions `-5` and `3`, the code
reports `|(-5) + 3| = 2`, while the sum of absolute values of the deletions of
the trailing entries is `8`. -/
theorem c4_counterexample :
    codeFreqDeletions (c4series.map tripleJson) = 2 ∧
    ((c4series.drop (c4series.length - 4)).map (fun w => |w.2.2|)).sum = 8 ∧
    codeFreqDeletions (c4series.map tripleJson) ≠
      ((c4series.drop (c4series.length - 4)).map (fun w => |w.2.2|)).sum :=
  ⟨by decide, by decide, by decide⟩

/-- The 6-entry series of the spec's own test vector. -/
def c4series6 : List (Int × Int × Int) :=
  [(0, 100, -1), (1, 10, -2), (2, 1, -4), (3, 2, -8), (4, 3, -16), (5, 4, -32)]

/-- Witness for C4: on a 6-entry all-non-positive-deletions series the amended
theorem applies, and only the last 4 entries contribute (`1+2+3+4 = 10`). -/
theorem c4_code_frequency_window_witness :
    codeFreqDeletions (c4series6.map tripleJson) =
      ((c4series6.drop (c4series6.length - 4)).map (fun w => |w.2.2|)).sum ∧
    codeFreqAdditions (c4series6.map tripleJson) = 10 := by
  refine ⟨(c4_code_frequency_window c4series6).2.2.2 (by decide), ?_⟩
  rw [(c4_code_frequency_window c4series6).1]
  decide

/-! ### C5: single JSON value in the paginated fetch -/

/-- Contribution of one line to the merged fallback list (source lines 53-61):
a parsed array extends, a parsed single value is appended wrapped, an
unparseable line is skipped. -/
def lineContribution (loads : String → Option Json) (line : String) : List Json :=
  match loads line with
  | some (Json.jarr xs) => xs
  | some v => [v]
  | none => []

/-- The merge fold of `gh_api` accumulates exactly the per-line
contributions. -/
theorem gh_api_foldl_eq (loads : String → Option Json) :
    ∀ (ls : List String) (acc : List Json),
      ls.foldl (fun acc line =>
        match loads line with
        | some (Json.jarr xs) => acc ++ xs
        | some v => acc ++ [v]
        | none => acc) acc = acc ++ (ls.map (lineContribution loads)).flatten := by
  intro ls
  induction ls with
  | nil => intro acc; simp
  | cons a t ih =>
    intro acc
    have hstep : (match loads a with
        | some (Json.jarr xs) => acc ++ xs
        | some v => acc ++ [v]
        | none => acc) = acc ++ lineContribution loads a := by
      unfold lineContribution
      cases loads a with
      | none => simp
      | some v => cases v <;> simp
    simp only [List.foldl_cons, hstep, ih, List.map_cons, List.flatten_cons, List.append_assoc]

/-- C5 (amended): a body that parses whole is returned as-is — in particular a
single non-sequence JSON value comes back bare, not wrapped; only in the
line-by-line fallback (body unparseable as one document) is a line's single
non-sequence value wrapped, as a one-element contribution to the merged
sequence, which is always returned as a sequence. -/
theorem c5_single_value_handling (loads : String → Option Json) (stdout : String) :
    (∀ v, pyStrip stdout ≠ "" → loads (pyStrip stdout) = some v →
      gh_api loads (some stdout) = some v) ∧
    (pyStrip stdout ≠ "" → loads (pyStrip stdout) = none →
      gh_api loads (some stdout) =
        (if (((pySplitLines (pyStrip stdout)).filter (fun l => pyStrip l ≠ "")).map
              (lineContribution loads)).flatten.isEmpty
         then none
         else some (Json.jarr ((((pySplitLines (pyStrip stdout)).filter
              (fun l => pyStrip l ≠ "")).map (lineContribution loads)).flatten)))) ∧
    (∀ line v, loads line = some v → (∀ xs, v ≠ Json.jarr xs) →
      lineContribution loads line = [v]) := by
  refine ⟨?_, ?_, ?_⟩
  · intro v hne hv
    simp [gh_api, hne, hv]
  · intro hne hnone
    have hfold := gh_api_foldl_eq loads
      ((pySplitLines (pyStrip stdout)).filter (fun line => pyStrip line ≠ "")) []
    rw [List.nil_append] at hfold
    simp only [gh_api, hne, hnone, if_false, reduceIte]
    simp only [ne_eq, decide_not] at hfold ⊢
    rw [hfold]
  · intro line v hv hnarr
    unfold lineContribution
    rw [hv]
    cases v with
    | jarr xs => exact absurd rfl (hnarr xs)
    | jnull => rfl
    | jbool b => rfl
    | jnum n => rfl
    | jstr s => rfl
    | jobj fs => rfl

/-- The toy `json.loads` fragment for the counterexample: the body `"7"`
parses as the number 7 (exactly as `json.loads("7")` does). -/
def loadsNum7 : String → Option Json :=
  fun s => if s = "7" then some (Json.jnum 7) else none

/-- C5 counterexample: a response body holding the single JSON value `7` is
returned bare by `gh_api`, not wrapped as a one-element sequence. -/
theorem c5_counterexample :
    gh_api loadsNum7 (some "7") = some (Json.jnum 7) ∧
    gh_api loadsNum7 (some "7") ≠ some (Json.jarr [Json.jnum 7]) := by
  refine ⟨rfl, ?_⟩
  intro h
  rw [show gh_api loadsNum7 (some "7") = some (Json.jnum 7) from rfl] at h
  exact Json.noConfusion (Option.some.inj h)

/-- The toy `json.loads` fragment for the C5 witness: only the line `"5"`
parses (as the number 5), the two-line body does not. -/
def loadsOnly5 : String → Option Json :=
  fun s => if s = "5" then some (Json.jnum 5) else none

/-- Witness for C5: a two-line body whose second line holds the single value
`5` goes through the fallback and comes back as the wrapped sequence `[5]`. -/
theorem c5_single_value_handling_witness :
    gh_api loadsOnly5 (some "x\n5") =
      (if (((pySplitLines (pyStrip "x\n5")).filter (fun l => pyStrip l ≠ "")).map
            (lineContribution loadsOnly5)).flatten.isEmpty
       then none
       else some (Json.jarr ((((pySplitLines (pyStrip "x\n5")).filter
            (fun l => pyStrip l ≠ "")).map (lineContribution loadsOnly5)).flatten))) ∧
    lineContribution loadsOnly5 "5" = [Json.jnum 5] ∧
    gh_api loadsOnly5 (some "x\n5") = some (Json.jarr [Json.jnum 5]) := by
  refine ⟨(c5_single_value_handling loadsOnly5 "x\n5").2.1 (by decide) rfl,
    (c5_single_value_handling loadsOnly5 "5").2.2 "5" (Json.jnum 5) rfl ?_, rfl⟩
  intro xs h
  exact Json.noConfusion h

/-! ### C3: deferred-computation retry in `gh_api_single` -/

/-- The retry condition of source line 82, reached only on a failing exit:
`"202" in result.stderr or not result.stdout.strip()`. -/
def pendingOutcome : RunOutcome → Bool
  | RunOutcome.completed rc out err => rc ≠ 0 && (contains202 err || pyStrip out = "")
  | RunOutcome.timedOut => false

/-- A run outcome that `gh_api_single` accepts as success with value `v`:
zero exit, non-empty body, body parsing to `v`. -/
def successOutcome (loads : String → Option Json) : RunOutcome → Json → Prop
  | RunOutcome.completed rc out _, v => rc = 0 ∧ pyStrip out ≠ "" ∧ loads out = some v
  | RunOutcome.timedOut, _ => False

/-- One loop iteration on a pending outcome before the last attempt moves on
to the next attempt. -/
theorem ghLoop_pending_step (loads : String → Option Json) (run : Nat → RunOutcome)
    (fuel attempt : Nat) (hp : pendingOutcome (run attempt) = true) (h2 : attempt < 2) :
    ghApiSingleLoop loads run 3 (fuel + 1) attempt = ghApiSingleLoop loads run 3 fuel (attempt + 1) := by
  have hlt : attempt < 3 := by omega
  cases hr : run attempt with
  | timedOut => simp [pendingOutcome, hr] at hp
  | completed rc out err =>
    simp only [pendingOutcome, hr, Bool.and_eq_true, Bool.or_eq_true, decide_eq_true_eq] at hp
    obtain ⟨h1, hor⟩ := hp
    have hor' : contains202 err ∨ pyStrip out = "" := by
      rcases hor with h | h
      · exact Or.inl h
      · exact Or.inr (by simpa using h)
    simp [ghApiSingleLoop, hr, hlt, h1, hor', h2]

/-- The last attempt on a pending outcome exhausts the budget: `None` after
exactly 3 attempts. -/
theorem ghLoop_pending_last (loads : String → Option Json) (run : Nat → RunOutcome)
    (fuel : Nat) (hp : pendingOutcome (run 2) = true) :
    ghApiSingleLoop loads run 3 (fuel + 1) 2 = (none, 3) := by
  cases hr : run 2 with
  | timedOut => simp [pendingOutcome, hr] at hp
  | completed rc out err =>
    simp only [pendingOutcome, hr, Bool.and_eq_true, Bool.or_eq_true, decide_eq_true_eq] at hp
    obtain ⟨h1, hor⟩ := hp
    have hor' : contains202 err ∨ pyStrip out = "" := by
      rcases hor with h | h
      · exact Or.inl h
      · exact Or.inr (by simpa using h)
    simp [ghApiSingleLoop, hr, h1, hor']

/-- A successful outcome at any in-range attempt returns its value, with
`attempt + 1` attempts made. -/
theorem ghLoop_success_step (loads : String → Option Json) (run : Nat → RunOutcome)
    (fuel attempt : Nat) (v : Json) (hs : successOutcome loads (run attempt) v)
    (hlt : attempt < 3) :
    ghApiSingleLoop loads run 3 (fuel + 1) attempt = (some v, attempt + 1) := by
  cases hr : run attempt with
  | timedOut => rw [hr] at hs; exact hs.elim
  | completed rc out err =>
    rw [hr] at hs
    obtain ⟨h0, hne, hl⟩ := hs
    subst h0
    simp [ghApiSingleLoop, hr, hlt, hne, hl]

/-- C3 (amended): with the default budget of 3, if the sub-query is pending —
in the sense the code tests: a *failing* exit whose stderr mentions 202 or
whose body is empty — on attempts `1..k-1` and attempt `k ≤ 3` succeeds, the
fetch returns the parsed value after exactly `k` attempts; if every attempt is
pending in that sense, it returns the absent sentinel after exactly 3
attempts. (A pending signal with a *zero* exit code is not retried; see the
counterexample.) The embedding is a total function, so no exception escapes. -/
theorem c3_retry_behaviour (loads : String → Option Json) (run : Nat → RunOutcome) :
    (∀ k v, 1 ≤ k → k ≤ 3 → (∀ i, i + 1 < k → pendingOutcome (run i) = true) →
      successOutcome loads (run (k - 1)) v → gh_api_single loads run 3 = (some v, k)) ∧
    ((∀ i, i < 3 → pendingOutcome (run i) = true) → gh_api_single loads run 3 = (none, 3)) := by
  constructor
  · intro k v hk1 hk3 hpend hsucc
    interval_cases k
    · exact ghLoop_success_step loads run 2 0 v hsucc (by omega)
    · have e1 : ghApiSingleLoop loads run 3 3 0 = ghApiSingleLoop loads run 3 2 1 :=
        ghLoop_pending_step loads run 2 0 (hpend 0 (by omega)) (by omega)
      have e2 : ghApiSingleLoop loads run 3 2 1 = (some v, 2) :=
        ghLoop_success_step loads run 1 1 v hsucc (by omega)
      exact e1.trans e2
    · have e1 : ghApiSingleLoop loads run 3 3 0 = ghApiSingleLoop loads run 3 2 1 :=
        ghLoop_pending_step loads run 2 0 (hpend 0 (by omega)) (by omega)
      have e2 : ghApiSingleLoop loads run 3 2 1 = ghApiSingleLoop loads run 3 1 2 :=
        ghLoop_pending_step loads run 1 1 (hpend 1 (by omega)) (by omega)
      have e3 : ghApiSingleLoop loads run 3 1 2 = (some v, 3) :=
        ghLoop_success_step loads run 0 2 v hsucc (by omega)
      exact (e1.trans e2).trans e3
  · intro hpend
    have e1 : ghApiSingleLoop loads run 3 3 0 = ghApiSingleLoop loads run 3 2 1 :=
      ghLoop_pending_step loads run 2 0 (hpend 0 (by omega)) (by omega)
    have e2 : ghApiSingleLoop loads run 3 2 1 = ghApiSingleLoop loads run 3 1 2 :=
      ghLoop_pending_step loads run 1 1 (hpend 1 (by omega)) (by omega)
    have e3 : ghApiSingleLoop loads run 3 1 2 = (none, 3) :=
      ghLoop_pending_last loads run 0 (hpend 2 (by omega))
    exact (e1.trans e2).trans e3

/-- Attempt schedule refuting C3 as stated: attempt 1 exits 0 with an empty
body (a pending signal per the claim's gloss), attempt 2 would succeed. -/
def runC3cx : Nat → RunOutcome :=
  fun i => if i = 0 then RunOutcome.completed 0 "" "" else RunOutcome.completed 0 "7" ""

/-- C3 counterexample: on a first attempt signalling pending via an *empty
body with zero exit code*, `gh_api_single` returns the absent sentinel after
one attempt instead of retrying into the success on attempt 2. -/
theorem c3_counterexample :
    runC3cx 0 = RunOutcome.completed 0 "" "" ∧
    runC3cx 1 = RunOutcome.completed 0 "7" "" ∧
    loadsNum7 "7" = some (Json.jnum 7) ∧
    gh_api_single loadsNum7 runC3cx 3 = (none, 1) ∧
    gh_api_single loadsNum7 runC3cx 3 ≠ (some (Json.jnum 7), 2) := by
  refine ⟨rfl, rfl, rfl, rfl, ?_⟩
  intro h
  rw [show gh_api_single loadsNum7 runC3cx 3 = (none, 1) from rfl] at h
  have := congrArg Prod.fst h
  simp at this

/-- Attempt schedule for the C3 witness, pending (failing exit, 202 in
stderr) once then succeeding. -/
def runC3succ2 : Nat → RunOutcome :=
  fun i => if i = 0 then RunOutcome.completed 1 "" "HTTP 202" else RunOutcome.completed 0 "7" ""

/-- Attempt schedule for the C3 witness, pending on every attempt. -/
def runC3allPending : Nat → RunOutcome :=
  fun _ => RunOutcome.completed 1 "" "HTTP 202 Accepted"

/-- Witness for C3: success on attempt 2 after one pending attempt returns the
value with 2 attempts made; three pending attempts return the absent sentinel
with exactly 3 attempts made. -/
theorem c3_retry_behaviour_witness :
    gh_api_single loadsNum7 runC3succ2 3 = (some (Json.jnum 7), 2) ∧
    gh_api_single loadsNum7 runC3allPending 3 = (none, 3) := by
  refine ⟨(c3_retry_behaviour loadsNum7 runC3succ2).1 2 (Json.jnum 7) (by omega) (by omega)
    ?_ ?_, (c3_retry_behaviour loadsNum7 runC3allPending).2 (fun i _ => rfl)⟩
  · intro i hi
    have h0 : i = 0 := by omega
    subst h0
    rfl
  · exact ⟨rfl, by decide, rfl⟩

/-! ### C7 and C10: the relative date formatter -/

/-- C7: for every timestamp string that parses to an aware datetime, the
relative formatter follows the documented piecewise rule on the elapsed time
against `now`: "just now" at 0 elapsed, "2h ago" at 2 hours, `{d}d ago` below
the 30-day boundary, `{mo}mo ago` from 30 up to 365 days, `{y}y ago` at or
past 365 days; an absent timestamp gives the placeholder glyph. -/
theorem c7_format_date_relative (s : String) (now : Int) (dt : PyDateTime) (off : Int)
    (hs : s ≠ "") (hp : fromisoformat (replaceZ s) = some dt) (hoff : dt.offset = some off) :
    (now * 1000000 - (dt.wall * 1000000 + dt.micro - off) = 0 →
      format_date (PyVal.vstr s) now true = Except.ok "just now") ∧
    (now * 1000000 - (dt.wall * 1000000 + dt.micro - off) = 7200000000 →
      format_date (PyVal.vstr s) now true = Except.ok "2h ago") ∧
    (∀ d : Int, 1 ≤ d → d < 30 →
      Int.fdiv (now * 1000000 - (dt.wall * 1000000 + dt.micro - off)) 86400000000 = d →
      format_date (PyVal.vstr s) now true = Except.ok (pyIntRepr d ++ "d ago")) ∧
    (∀ d : Int, 30 ≤ d → d < 365 →
      Int.fdiv (now * 1000000 - (dt.wall * 1000000 + dt.micro - off)) 86400000000 = d →
      format_date (PyVal.vstr s) now true = Except.ok (pyIntRepr (Int.fdiv d 30) ++ "mo ago")) ∧
    (∀ d : Int, 365 ≤ d →
      Int.fdiv (now * 1000000 - (dt.wall * 1000000 + dt.micro - off)) 86400000000 = d →
      format_date (PyVal.vstr s) now true = Except.ok (pyIntRepr (Int.fdiv d 365) ++ "y ago")) ∧
    format_date PyVal.vnone now true = Except.ok "—" := by
  have hfd : format_date (PyVal.vstr s) now true =
      Except.ok (relativeLabel (now * 1000000 - (dt.wall * 1000000 + dt.micro - off))) := by
    simp [format_date, PyVal.truthy, hs, hp, hoff]
  refine ⟨?_, ?_, ?_, ?_, ?_, rfl⟩
  · intro hz
    rw [hfd, hz]
    exact congrArg Except.ok (by decide)
  · intro hz
    rw [hfd, hz]
    exact congrArg Except.ok (by decide)
  · intro d h1 h30 hd
    rw [hfd]
    simp only [relativeLabel, hd]
    rw [if_neg (by omega : ¬ d = 0), if_pos h30]
  · intro d h30 h365 hd
    rw [hfd]
    simp only [relativeLabel, hd]
    rw [if_neg (by omega : ¬ d = 0), if_neg (by omega : ¬ d < 30), if_pos h365]
  · intro d h365 hd
    rw [hfd]
    simp only [relativeLabel, hd]
    rw [if_neg (by omega : ¬ d = 0), if_neg (by omega : ¬ d < 30),
      if_neg (by omega : ¬ d < 365)]

/-- Witness for C7: the spec's test vector, on a concrete GitHub-style
timestamp. -/
theorem c7_format_date_relative_witness :
    format_date (PyVal.vstr "2024-01-15T10:30:00Z") 1705314600 true = Except.ok "just now" ∧
    format_date (PyVal.vstr "2024-01-15T10:30:00Z") (1705314600 + 7200) true = Except.ok "2h ago" ∧
    format_date (PyVal.vstr "2024-01-15T10:30:00Z") (1705314600 + 864000) true = Except.ok "10d ago" ∧
    format_date (PyVal.vstr "2024-01-15T10:30:00Z") (1705314600 + 5184000) true = Except.ok "2mo ago" ∧
    format_date (PyVal.vstr "2024-01-15T10:30:00Z") (1705314600 + 34560000) true = Except.ok "1y ago" ∧
    format_date PyVal.vnone 1705314600 true = Except.ok "—" := by
  refine ⟨(c7_format_date_relative _ 1705314600 ⟨1705314600, 0, some 0⟩ 0 (by decide)
      (by decide) rfl).1 (by decide),
    (c7_format_date_relative _ (1705314600 + 7200) ⟨1705314600, 0, some 0⟩ 0 (by decide)
      (by decide) rfl).2.1 (by decide),
    ((c7_format_date_relative _ (1705314600 + 864000) ⟨1705314600, 0, some 0⟩ 0 (by decide)
      (by decide) rfl).2.2.1 10 (by decide) (by decide) (by decide)).trans
      (congrArg Except.ok (by decide)),
    ((c7_format_date_relative _ (1705314600 + 5184000) ⟨1705314600, 0, some 0⟩ 0 (by decide)
      (by decide) rfl).2.2.2.1 60 (by decide) (by decide) (by decide)).trans
      (congrArg Except.ok (by decide)),
    ((c7_format_date_relative _ (1705314600 + 34560000) ⟨1705314600, 0, some 0⟩ 0 (by decide)
      (by decide) rfl).2.2.2.2.1 400 (by decide) (by decide)).trans
      (congrArg Except.ok (by decide)),
    (c7_format_date_relative "2024-01-15T10:30:00Z" 1705314600 ⟨1705314600, 0, some 0⟩ 0
      (by decide) (by decide) rfl).2.2.2.2.2⟩

/-- C10 (amended): for every input, the formatter returns a string — the
placeholder when the argument is falsy, is not a string, or fails to parse —
EXCEPT when the string parses as a naive timestamp (no UTC offset): there the
aware-minus-naive subtraction raises `TypeError`, which the
`except (ValueError, AttributeError)` clause does not catch. -/
theorem c10_format_date_total (s : String) (now : Int) :
    (fromisoformat (replaceZ s) = none → format_date (PyVal.vstr s) now true = Except.ok "—") ∧
    (∀ dt, fromisoformat (replaceZ s) = some dt → dt.offset = none → s ≠ "" →
      format_date (PyVal.vstr s) now true = Except.error "TypeError") ∧
    (∀ dt off, fromisoformat (replaceZ s) = some dt → dt.offset = some off → s ≠ "" →
      format_date (PyVal.vstr s) now true =
        Except.ok (relativeLabel (now * 1000000 - (dt.wall * 1000000 + dt.micro - off)))) ∧
    (∀ v : PyVal, (∀ t, v ≠ PyVal.vstr t) → format_date v now true = Except.ok "—") := by
  refine ⟨?_, ?_, ?_, ?_⟩
  · intro hp
    by_cases hs : s = ""
    · subst hs; rfl
    · simp [format_date, PyVal.truthy, hs, hp]
  · intro dt hp hoff hs
    simp [format_date, PyVal.truthy, hs, hp, hoff]
  · intro dt off hp hoff hs
    simp [format_date, PyVal.truthy, hs, hp, hoff]
  · intro v hv
    cases v with
    | vstr t => exact absurd rfl (hv t)
    | vnone => rfl
    | vbool b => cases b <;> rfl
    | vint n => simp [format_date]
    | vfloat r => simp [format_date]

/-- C10 counterexample: the string `"2024-01-15T10:30:00"` parses as a naive
ISO timestamp and the formatter raises `TypeError` instead of returning a
string. -/
theorem c10_counterexample :
    fromisoformat (replaceZ "2024-01-15T10:30:00") =
      some { wall := 1705314600, micro := 0, offset := none } ∧
    format_date (PyVal.vstr "2024-01-15T10:30:00") 1705314600 true =
      Except.error "TypeError" :=
  ⟨by decide, rfl⟩

/-- Witness for C10: an unparseable string gives the placeholder, a naive
timestamp raises, a non-string argument gives the placeholder. -/
theorem c10_format_date_total_witness :
    format_date (PyVal.vstr "garbage") 0 true = Except.ok "—" ∧
    format_date (PyVal.vstr "2024-03-01T00:00:00") 0 true = Except.error "TypeError" ∧
    format_date (PyVal.vint 5) 0 true = Except.ok "—" :=
  ⟨(c10_format_date_total "garbage" 0).1 (by decide),
   (c10_format_date_total "2024-03-01T00:00:00" 0).2.1 ⟨1709251200, 0, none⟩ (by decide)
     rfl (by decide),
   (c10_format_date_total "unused" 0).2.2.2 (PyVal.vint 5)
     (fun t h => PyVal.noConfusion h)⟩

/-! ### C8: CI sub-query skip flag -/

/-- C8: for a descriptor whose type is in the skip set the CI sub-query is
never issued and the CI status holds the `"n/a"` sentinel; for any other type
the CI sub-query is issued, and a missing CI response leaves the distinct
unknown value `None`. -/
theorem c8_ci_skip (api apiSingle : String → Option Json) (roundKB : Int → PyVal)
    (repo ptype : String) (now : Int) :
    (ptype ∈ CI_SKIP_WORKFLOW →
      (∀ pth, ApiCall.ciRuns pth ∉ (get_provider_stats api apiSingle roundKB repo ptype now).2) ∧
      (get_provider_stats api apiSingle roundKB repo ptype now).1.ci_status =
        some (PyVal.vstr "n/a")) ∧
    (ptype ∉ CI_SKIP_WORKFLOW →
      ApiCall.ciRuns ("/repos/" ++ repo ++ "/actions/workflows/test.yml/runs?per_page=1") ∈
        (get_provider_stats api apiSingle roundKB repo ptype now).2 ∧
      (apiSingle ("/repos/" ++ repo ++ "/actions/workflows/test.yml/runs?per_page=1") = none →
        (get_provider_stats api apiSingle roundKB repo ptype now).1.ci_status =
          some PyVal.vnone)) ∧
    PyVal.vstr "n/a" ≠ PyVal.vnone := by
  refine ⟨?_, ?_, by decide⟩
  · intro hc
    have hps : ptype = "server_fork" := by simpa [CI_SKIP_WORKFLOW] using hc
    subst hps
    constructor
    · intro pth
      simp [get_provider_stats, CI_SKIP_WORKFLOW]
    · simp [get_provider_stats, CI_SKIP_WORKFLOW]
  · intro hc
    have hne : ptype ≠ "server_fork" := by simpa [CI_SKIP_WORKFLOW] using hc
    have hb : CI_SKIP_WORKFLOW.contains ptype = false := by
      simp [CI_SKIP_WORKFLOW, hne]
    constructor
    · simp [get_provider_stats, hb, hc]
    · intro hnone
      simp [get_provider_stats, hb, hc, hnone]

/-- The all-absent oracle: every sub-query returns the absent sentinel. -/
def apiNone : String → Option Json := fun _ => none

/-- Witness for C8: with the flagged type the CI call is absent and the
sentinel is `"n/a"`; with a music-provider type the CI call is issued and a
missing CI response leaves `None`. -/
theorem c8_ci_skip_witness :
    (∀ pth, ApiCall.ciRuns pth ∉
      (get_provider_stats apiNone apiNone (fun _ => PyVal.vint 0) "o/r" "server_fork" 0).2) ∧
    (get_provider_stats apiNone apiNone (fun _ => PyVal.vint 0) "o/r" "server_fork" 0).1.ci_status =
      some (PyVal.vstr "n/a") ∧
    ApiCall.ciRuns "/repos/o/r/actions/workflows/test.yml/runs?per_page=1" ∈
      (get_provider_stats apiNone apiNone (fun _ => PyVal.vint 0) "o/r" "music_provider" 0).2 ∧
    (get_provider_stats apiNone apiNone (fun _ => PyVal.vint 0) "o/r" "music_provider" 0).1.ci_status =
      some PyVal.vnone := by
  refine ⟨((c8_ci_skip apiNone apiNone _ "o/r" "server_fork" 0).1 (by decide)).1,
    ((c8_ci_skip apiNone apiNone _ "o/r" "server_fork" 0).1 (by decide)).2,
    ((c8_ci_skip apiNone apiNone _ "o/r" "music_provider" 0).2.1 (by decide)).1,
    ((c8_ci_skip apiNone apiNone _ "o/r" "music_provider" 0).2.1 (by decide)).2 rfl⟩

/-! ### C9: complete record under total sub-query failure -/

/-- A `mapM` over `Except` that returns `ok` produces one output per input. -/
theorem mapM_ok_length {α β : Type} (f : α → Except String β) :
    ∀ (l : List α) (r : List β), l.mapM f = Except.ok r → r.length = l.length := by
  intro l
  induction l with
  | nil =>
    intro r h
    have h2 : Except.ok ([] : List β) = Except.ok r := h
    cases h2
    rfl
  | cons a t ih =>
    intro r h
    rw [List.mapM_cons] at h
    cases hfa : f a with
    | error e =>
      rw [hfa] at h
      have h2 : (Except.error e : Except String (List β)) = Except.ok r := h
      exact Except.noConfusion h2
    | ok b =>
      rw [hfa] at h
      cases hmt : t.mapM f with
      | error e =>
        rw [hmt] at h
        have h2 : (Except.error e : Except String (List β)) = Except.ok r := h
        exact Except.noConfusion h2
      | ok bs =>
        rw [hmt] at h
        have h2 : Except.ok (b :: bs) = Except.ok r := h
        cases h2
        simp [ih bs hmt]

/-- The stats record documented as the all-defaults outcome: every numeric
field zero, every optional field `None`, the CI status as given. -/
def defaultsRecord (ciStatus : PyVal) : StatsRecord :=
  { pr_open := some (PyVal.vint 0), pr_draft := some (PyVal.vint 0),
    pr_merged_30d := some (PyVal.vint 0), issues_open := some (PyVal.vint 0),
    bugs := some (PyVal.vint 0), enhancements := some (PyVal.vint 0),
    incidents := some (PyVal.vint 0), ci_status := some ciStatus,
    ci_date := some PyVal.vnone, last_release := some PyVal.vnone,
    last_release_date := some PyVal.vnone, commits_30d := some (PyVal.vint 0),
    last_commit := some PyVal.vnone, contributors := some (PyVal.vint 0),
    additions_30d := some (PyVal.vint 0), deletions_30d := some (PyVal.vint 0),
    py_files := some (PyVal.vint 0), code_size_kb := some (PyVal.vint 0) }

/-- C9: with every sub-query absent, the aggregator still builds the complete
record with every numeric field at zero and every optional field at its
unknown default (the CI field honouring the skip flag); each of the three
rendered tables and the structured output carries exactly one row/object per
descriptor; and the all-defaults descriptor's row renders without an
exception. -/
theorem c9_total_failure_record :
    (∀ (roundKB : Int → PyVal) (repo ptype : String) (now : Int),
      (get_provider_stats apiNone apiNone roundKB repo ptype now).1 =
        defaultsRecord (if ptype ∈ CI_SKIP_WORKFLOW then PyVal.vstr "n/a" else PyVal.vnone)) ∧
    (∀ (nowR : Int) (allStats : List (String × StatsRecord)) (providers : List Provider)
        (rows1 : List String),
      providers.mapM (row1 nowR allStats) = Except.ok rows1 → rows1.length = providers.length) ∧
    (∀ (allStats : List (String × StatsRecord)) (providers : List Provider),
      (providers.map (row2 allStats)).length = providers.length) ∧
    (∀ (nowR : Int) (allStats : List (String × StatsRecord)) (providers : List Provider)
        (rows3 : List String),
      providers.mapM (row3 nowR allStats) = Except.ok rows3 → rows3.length = providers.length) ∧
    (∀ (providers : List Provider) (allStats : List (String × StatsRecord)),
      (structured_records providers allStats).length = providers.length) ∧
    (∀ (nowR now : Int) (p : Provider) (roundKB : Int → PyVal),
      ∃ out, row1 nowR
        [(p.repo, (get_provider_stats apiNone apiNone roundKB p.repo
            (p.provider_type.getD "") now).1)] p = Except.ok out) := by
  have hrec : ∀ (roundKB : Int → PyVal) (repo ptype : String) (now : Int),
      (get_provider_stats apiNone apiNone roundKB repo ptype now).1 =
        defaultsRecord (if ptype ∈ CI_SKIP_WORKFLOW then PyVal.vstr "n/a" else PyVal.vnone) := by
    intro roundKB repo ptype now
    by_cases hc : ptype ∈ CI_SKIP_WORKFLOW
    · have hps : ptype = "server_fork" := by simpa [CI_SKIP_WORKFLOW] using hc
      subst hps
      simp [get_provider_stats, apiNone, CI_SKIP_WORKFLOW, labelTally, tallyGet, count_list,
        Json.asList, defaultsRecord]
    · have hne : ptype ≠ "server_fork" := by simpa [CI_SKIP_WORKFLOW] using hc
      have hb : CI_SKIP_WORKFLOW.contains ptype = false := by
        simp [CI_SKIP_WORKFLOW, hne]
      simp [get_provider_stats, apiNone, hb, hc, labelTally, tallyGet, count_list, Json.asList,
        defaultsRecord]
  refine ⟨hrec, ?_, ?_, ?_, ?_, ?_⟩
  · intro nowR allStats providers rows1 h
    exact mapM_ok_length _ providers rows1 h
  · intro allStats providers
    exact List.length_map providers (row2 allStats)
  · intro nowR allStats providers rows3 h
    exact mapM_ok_length _ providers rows3 h
  · intro providers allStats
    exact List.length_map providers _
  · intro nowR now p roundKB
    rw [hrec roundKB p.repo (p.provider_type.getD "") now]
    by_cases hc : (p.provider_type.getD "") ∈ CI_SKIP_WORKFLOW
    · rw [if_pos hc]
      refine ⟨"| [" ++ (p.display_name.getD p.domain) ++ "](" ++
        ("https://github.com/" ++ p.repo) ++ ") | " ++ typeShort (p.provider_type.getD "") ++
        " | " ++ "0" ++ " | " ++ "0" ++ " | " ++ "0" ++ " | " ++ "0" ++ " | " ++ "0" ++ " | " ++
        "0" ++ " | " ++ "0" ++ " | " ++ "—" ++ " | " ++ "—" ++ " |", ?_⟩
      simp only [row1]
      rw [show statsFor [(p.repo, defaultsRecord (PyVal.vstr "n/a"))] p.repo =
        defaultsRecord (PyVal.vstr "n/a") by simp [statsFor]]
      rfl
    · rw [if_neg hc]
      refine ⟨"| [" ++ (p.display_name.getD p.domain) ++ "](" ++
        ("https://github.com/" ++ p.repo) ++ ") | " ++ typeShort (p.provider_type.getD "") ++
        " | " ++ "0" ++ " | " ++ "0" ++ " | " ++ "0" ++ " | " ++ "0" ++ " | " ++ "0" ++ " | " ++
        "0" ++ " | " ++ "0" ++ " | " ++ "❓" ++ " | " ++ "—" ++ " |", ?_⟩
      simp only [row1]
      rw [show statsFor [(p.repo, defaultsRecord PyVal.vnone)] p.repo =
        defaultsRecord PyVal.vnone by simp [statsFor]]
      rfl

/-- A concrete registry entry for witnesses. -/
def provA : Provider :=
  { repo := "org/alpha", domain := "alpha", display_name := some "Alpha",
    provider_type := some "music_provider" }

/-- Witness for C9: a concrete descriptor whose every sub-query failed gets
the all-defaults record, renders as exactly one first-table row, and that row
raises no exception. -/
theorem c9_total_failure_record_witness :
    (get_provider_stats apiNone apiNone (fun _ => PyVal.vint 0) "org/alpha" "music_provider"
      1700000000).1 = defaultsRecord PyVal.vnone ∧
    (∃ rows1, [provA].mapM (row1 1700000000 [("org/alpha", defaultsRecord PyVal.vnone)]) =
        Except.ok rows1 ∧ rows1.length = 1) ∧
    (∃ out, row1 1700000000
      [(provA.repo, (get_provider_stats apiNone apiNone (fun _ => PyVal.vint 0) provA.repo
          (provA.provider_type.getD "") 1700000000).1)] provA = Except.ok out) := by
  refine ⟨?_, ?_, ?_⟩
  · have h := c9_total_failure_record.1 (fun _ => PyVal.vint 0) "org/alpha" "music_provider"
      1700000000
    rw [if_neg (by decide)] at h
    exact h
  · exact ⟨_, rfl, c9_total_failure_record.2.1 1700000000
      [("org/alpha", defaultsRecord PyVal.vnone)] [provA] _ rfl⟩
  · exact c9_total_failure_record.2.2.2.2.2 1700000000 1700000000 provA (fun _ => PyVal.vint 0)

/-! ### C1: the trailing totals row -/

/-- The totals fold, started anywhere, adds the field-wise sums of the
per-record contributions. -/
theorem foldl_totalsStep (rs : List StatsRecord) : ∀ (t0 : Totals),
    rs.foldl totalsStep t0 =
      { pr_open := t0.pr_open + (rs.map (fun s => intContrib s.pr_open)).sum,
        pr_draft := t0.pr_draft + (rs.map (fun s => intContrib s.pr_draft)).sum,
        pr_merged_30d := t0.pr_merged_30d + (rs.map (fun s => intContrib s.pr_merged_30d)).sum,
        bugs := t0.bugs + (rs.map (fun s => intContrib s.bugs)).sum,
        enhancements := t0.enhancements + (rs.map (fun s => intContrib s.enhancements)).sum,
        incidents := t0.incidents + (rs.map (fun s => intContrib s.incidents)).sum,
        issues_open := t0.issues_open + (rs.map (fun s => intContrib s.issues_open)).sum } := by
  induction rs with
  | nil => intro t0; simp
  | cons a t ih =>
    intro t0
    simp only [List.foldl_cons, ih, totalsStep, List.map_cons, List.sum_cons, Totals.mk.injEq]
    refine ⟨?_, ?_, ?_, ?_, ?_, ?_, ?_⟩ <;> omega

/-- C1: the totals row of the rendered dashboard holds, for each of its seven
fields, the field-wise sum over the Snapshot's records (registry order,
`all_stats.get(repo, {})` per provider) of the integer contribution of that
field — a record in which the field is missing or non-integer contributes
nothing. The second part locates that row inside the rendered line list:
directly after the provider rows of the first table. -/
theorem c1_totals_row (providers : List Provider) (allStats : List (String × StatsRecord)) :
    computeTotals (providers.map (fun p => statsFor allStats p.repo)) =
      { pr_open := ((providers.map (fun p => statsFor allStats p.repo)).map
          (fun s => intContrib s.pr_open)).sum,
        pr_draft := ((providers.map (fun p => statsFor allStats p.repo)).map
          (fun s => intContrib s.pr_draft)).sum,
        pr_merged_30d := ((providers.map (fun p => statsFor allStats p.repo)).map
          (fun s => intContrib s.pr_merged_30d)).sum,
        bugs := ((providers.map (fun p => statsFor allStats p.repo)).map
          (fun s => intContrib s.bugs)).sum,
        enhancements := ((providers.map (fun p => statsFor allStats p.repo)).map
          (fun s => intContrib s.enhancements)).sum,
        incidents := ((providers.map (fun p => statsFor allStats p.repo)).map
          (fun s => intContrib s.incidents)).sum,
        issues_open := ((providers.map (fun p => statsFor allStats p.repo)).map
          (fun s => intContrib s.issues_open)).sum } ∧
    (∀ (nowR : Int) (L : List String), dashboard_lines nowR providers allStats = Except.ok L →
      (L.drop (10 + providers.length)).take 3 =
        ["", totalsRowStr (computeTotals (providers.map (fun p => statsFor allStats p.repo))),
         ""]) := by
  constructor
  · rw [computeTotals, foldl_totalsStep]
    simp [initTotals]
  · intro nowR L h
    rw [dashboard_lines] at h
    cases h1 : providers.mapM (row1 nowR allStats) with
    | error e =>
      rw [h1] at h
      have h2 : (Except.error e : Except String (List String)) = Except.ok L := h
      exact Except.noConfusion h2
    | ok rows1 =>
      rw [h1] at h
      cases h3 : providers.mapM (row3 nowR allStats) with
      | error e =>
        rw [h3] at h
        have h2 : (Except.error e : Except String (List String)) = Except.ok L := h
        exact Except.noConfusion h2
      | ok rows3 =>
        rw [h3] at h
        have h2 : Except.ok (headerLines nowR ++ rows1 ++
            ["", totalsRowStr (computeTotals (providers.map (fun p => statsFor allStats p.repo))),
             ""] ++ codebaseHeader ++ providers.map (row2 allStats) ++ intensityHeader ++ rows3 ++
            ["", "---", ""]) = Except.ok L := h
        cases h2
        have hlen : (headerLines nowR ++ rows1).length = 10 + providers.length := by
          simp [headerLines, mapM_ok_length _ providers rows1 h1]
          omega
        rw [show 10 + providers.length = (headerLines nowR ++ rows1).length from hlen.symm]
        rw [show headerLines nowR ++ rows1 ++
            ["", totalsRowStr (computeTotals (providers.map (fun p => statsFor allStats p.repo))),
             ""] ++ codebaseHeader ++ providers.map (row2 allStats) ++ intensityHeader ++ rows3 ++
            ["", "---", ""] =
          (headerLines nowR ++ rows1) ++
            (["", totalsRowStr (computeTotals (providers.map (fun p => statsFor allStats p.repo))),
              ""] ++ (codebaseHeader ++ (providers.map (row2 allStats) ++ (intensityHeader ++
              (rows3 ++ ["", "---", ""]))))) by simp [List.append_assoc]]
        rw [List.drop_left]
        rfl

/-- Concrete snapshot fixture for the C1 witness: two providers, one with
stats, one with the empty record. -/
def provC : Provider :=
  { repo := "org/beta", domain := "beta", display_name := none,
    provider_type := some "server_fork" }

/-- Stats fixture for the C1 witness. -/
def c1stats : List (String × StatsRecord) :=
  [("org/alpha",
    { pr_open := some (PyVal.vint 3), pr_draft := some (PyVal.vint 1),
      pr_merged_30d := some (PyVal.vint 2), issues_open := some (PyVal.vint 7),
      bugs := some (PyVal.vint 4), enhancements := some (PyVal.vint 5),
      incidents := some (PyVal.vint 0), ci_status := some (PyVal.vstr "success"),
      ci_date := some PyVal.vnone, last_release := some PyVal.vnone,
      last_release_date := some PyVal.vnone, commits_30d := some (PyVal.vint 9),
      last_commit := some PyVal.vnone, contributors := some (PyVal.vint 2),
      additions_30d := some (PyVal.vint 10), deletions_30d := some (PyVal.vint 3),
      py_files := some (PyVal.vint 1), code_size_kb := some (PyVal.vint 0) })]

/-- Witness for C1: on a concrete two-provider snapshot (the second provider
has no stats entry, so it contributes nothing), the rendered line list has the
totals row of the field-wise sums right after the provider rows. -/
theorem c1_totals_row_witness :
    computeTotals ([provA, provC].map (fun p => statsFor c1stats p.repo)) =
      { pr_open := 3, pr_draft := 1, pr_merged_30d := 2, bugs := 4, enhancements := 5,
        incidents := 0, issues_open := 7 } ∧
    (∃ L, dashboard_lines 1700000000 [provA, provC] c1stats = Except.ok L ∧
      (L.drop (10 + [provA, provC].length)).take 3 =
        ["", totalsRowStr (computeTotals ([provA, provC].map (fun p => statsFor c1stats p.repo))),
         ""] ∧
      (L.drop 12).take 3 =
        ["", "| **Total** | — | **3** | **1** | **2** | **4** | **5** | **0** | **7** | — | — |",
         ""]) := by
  refine ⟨by decide, ⟨_, rfl, (c1_totals_row [provA, provC] c1stats).2 1700000000 _ rfl, ?_⟩⟩
  decide

/-! ### C2: the two renderings of the same numeric field -/

/-- A decimal digit character is never the thousands separator. -/
theorem digitChar_ne_comma (d : Nat) : digitChar d ≠ ',' := by
  unfold digitChar
  have h10 : d % 10 < 10 := Nat.mod_lt _ (by norm_num)
  revert h10
  generalize d % 10 = k
  intro h10
  interval_cases k <;> decide

/-- Every character produced by the digit accumulator is a non-comma, provided
the seed is. -/
theorem natDigitsAux_chars : ∀ (fuel n : Nat) (acc : List Char),
    (∀ c ∈ acc, c ≠ ',') → ∀ c ∈ natDigitsAux fuel n acc, c ≠ ',' := by
  intro fuel
  induction fuel with
  | zero => intro n acc hacc; simpa [natDigitsAux] using hacc
  | succ f ih =>
    intro n acc hacc
    cases n with
    | zero => simpa [natDigitsAux] using hacc
    | succ m =>
      simp only [natDigitsAux]
      exact ih ((m + 1) / 10) _ (by
        intro c hc
        rcases List.mem_cons.mp hc with h | h
        · subst h; exact digitChar_ne_comma _
        · exact hacc c h)

/-- The decimal rendering of a natural number contains no comma. -/
theorem pyNatRepr_chars (n : Nat) : ∀ c ∈ (pyNatRepr n).data, c ≠ ',' := by
  unfold pyNatRepr
  by_cases h : n = 0
  · subst h
    intro c hc
    simp at hc
    subst hc
    decide
  · simp only [h, if_false]
    exact natDigitsAux_chars n n [] (by simp)

/-- Removing the separators inserted by the grouping worker recovers the
original comma-free character list. -/
theorem filter_insertCommasRev : ∀ (l : List Char), (∀ c ∈ l, c ≠ ',') →
    (insertCommasRev l).filter (fun c => c ≠ ',') = l
  | a :: b :: c :: d :: rest => fun h => by
      have ha := h a (by simp)
      have hb := h b (by simp)
      have hc := h c (by simp)
      have hrec := filter_insertCommasRev (d :: rest)
        (fun x hx => h x (List.mem_cons_of_mem a (List.mem_cons_of_mem b
          (List.mem_cons_of_mem c hx))))
      show (a :: b :: c :: ',' :: insertCommasRev (d :: rest)).filter (fun x => x ≠ ',') =
        a :: b :: c :: d :: rest
      simp only [ne_eq, decide_not] at hrec
      simp [List.filter_cons, ha, hb, hc, hrec]
  | [] => fun _ => rfl
  | [a] => fun h => by simp [insertCommasRev, List.filter_cons, h a (by simp)]
  | [a, b] => fun h => by
      simp [insertCommasRev, List.filter_cons, h a (by simp), h b (by simp)]
  | [a, b, c] => fun h => by
      simp [insertCommasRev, List.filter_cons, h a (by simp), h b (by simp), h c (by simp)]

/-- Stripping the thousands separators from `format(n, ",")` yields exactly
`str(n)` — the two cell texts denote the same integer. -/
theorem stripCommas_pyCommaFmt (n : Int) : stripCommas (pyCommaFmt n) = pyIntRepr n := by
  have hdig : ∀ c ∈ (pyNatRepr n.natAbs).data, c ≠ ',' := pyNatRepr_chars n.natAbs
  have hrevdig : ∀ c ∈ (pyNatRepr n.natAbs).data.reverse, c ≠ ',' := by
    intro c hc
    exact hdig c (List.mem_reverse.mp hc)
  have hA := filter_insertCommasRev ((pyNatRepr n.natAbs).data.reverse) hrevdig
  unfold stripCommas pyCommaFmt
  by_cases h : n < 0
  · simp only [if_pos h, String.data_append]
    rw [List.filter_append, List.filter_reverse, hA]
    simp only [List.reverse_reverse]
    show String.mk (List.filter (fun c => c ≠ ',') ['-'] ++ (pyNatRepr n.natAbs).data) = pyIntRepr n
    rw [show List.filter (fun c => c ≠ ',') ['-'] = ['-'] from by decide]
    simp [pyIntRepr, h]
    rfl
  · simp only [if_neg h, String.data_append]
    rw [List.filter_append, List.filter_reverse, hA]
    simp only [List.reverse_reverse]
    show String.mk (List.filter (fun c => c ≠ ',') [] ++ (pyNatRepr n.natAbs).data) = pyIntRepr n
    simp [pyIntRepr, h]

/-- C2 (amended): every numeric field shown in the tables is a view of the
very value the structured rendering serializes: the plain count cells are
byte-identical to the structured serialization; the churn cells equal the
structured bytes after removing the thousands separators the table format
adds (the table also prefixes a `+`/`-` sign mark); the code-size cell is the
structured bytes followed by `" KB"`. Byte-identity of the churn cells
themselves fails, see the counterexample. -/
theorem c2_shared_numeric_fields (s : StatsRecord) (n : Int) (r : String) :
    (cellGet (some (PyVal.vint n)) = structuredFieldStr (some (PyVal.vint n))) ∧
    (s.additions_30d = some (PyVal.vint n) →
      pyFormatComma (s.additions_30d.getD (PyVal.vint 0)) = Except.ok (pyCommaFmt n) ∧
      stripCommas (pyCommaFmt n) = structuredFieldStr s.additions_30d) ∧
    (s.deletions_30d = some (PyVal.vint n) →
      pyFormatComma (s.deletions_30d.getD (PyVal.vint 0)) = Except.ok (pyCommaFmt n) ∧
      stripCommas (pyCommaFmt n) = structuredFieldStr s.deletions_30d) ∧
    (s.code_size_kb = some (PyVal.vfloat r) →
      cellGet s.code_size_kb = r ∧ structuredFieldStr s.code_size_kb = r) := by
  refine ⟨rfl, ?_, ?_, ?_⟩
  · intro h
    rw [h]
    exact ⟨rfl, by rw [stripCommas_pyCommaFmt]; rfl⟩
  · intro h
    rw [h]
    exact ⟨rfl, by rw [stripCommas_pyCommaFmt]; rfl⟩
  · intro h
    rw [h]
    exact ⟨rfl, rfl⟩

/-- A registry entry for the C2/C6 fixtures. -/
def provB : Provider :=
  { repo := "o/r", domain := "r", display_name := none,
    provider_type := some "music_provider" }

/-- A record whose additions field is large enough to trigger the thousands
separator. -/
def c2record : StatsRecord := { additions_30d := some (PyVal.vint 1234) }

/-- C2 counterexample: the rendered third-table row shows the additions field
as `+1,234`, while the structured rendering of the same Snapshot field is the
bytes `1234` — which appear nowhere in the rendered row, so no shared numeric
field text is byte-identical here. -/
theorem c2_counterexample :
    row3 0 [("o/r", c2record)] provB =
      Except.ok "| [r](https://github.com/o/r) | ? | — | +1,234 | -0 |" ∧
    structuredFieldStr c2record.additions_30d = "1234" ∧
    charsInfixOf "1234".data ("| [r](https://github.com/o/r) | ? | — | +1,234 | -0 |").data =
      false :=
  ⟨rfl, rfl, by decide⟩

/-- A record exercising all three field shapes of the C2 statement. -/
def c2record2 : StatsRecord :=
  { additions_30d := some (PyVal.vint 9876543), deletions_30d := some (PyVal.vint 12),
    code_size_kb := some (PyVal.vfloat "4.2") }

/-- Witness for C2: on a concrete record the churn cell text strips to exactly
the structured bytes, and the code-size cell shows the structured bytes. -/
theorem c2_shared_numeric_fields_witness :
    (pyFormatComma (c2record2.additions_30d.getD (PyVal.vint 0)) =
        Except.ok (pyCommaFmt 9876543) ∧
      stripCommas (pyCommaFmt 9876543) = structuredFieldStr c2record2.additions_30d) ∧
    pyCommaFmt 9876543 = "9,876,543" ∧
    structuredFieldStr c2record2.additions_30d = "9876543" ∧
    (cellGet c2record2.code_size_kb = "4.2" ∧
      structuredFieldStr c2record2.code_size_kb = "4.2") :=
  ⟨(c2_shared_numeric_fields c2record2 9876543 "4.2").2.1 rfl, by decide, rfl,
   (c2_shared_numeric_fields c2record2 9876543 "4.2").2.2.2 rfl⟩

/-! ### C6: the anchor of the merged-in-window count -/

/-- C6 (amended): for the `i`-th descriptor of a run, the merged count is the
number of closed items whose truthy merge-timestamp string compares at or
after the ISO rendering of *that descriptor's fetch-entry clock reading minus
30 days* (`clock i`): the anchor is read once per descriptor at the start of
its stats collection, shared by its sub-queries, but is neither a single
run-wide timestamp nor the render-time snapshot timestamp. There is also no
upper bound at the anchor. The well-formedness hypothesis keeps the quantified
payloads inside the modelled fragment (a truthy non-string `merged_at` would
raise in Python). -/
theorem c6_merged_window_anchor (api apiSingle : String → Option Json) (roundKB : Int → PyVal)
    (clock : Nat → Int) (providers : List Provider) (i : Nat) (hi : i < providers.length)
    (_hwf : ∀ item ∈ Json.asList (api ("/repos/" ++ (providers.get ⟨i, hi⟩).repo ++
        "/pulls?state=closed&per_page=100")),
      ∀ j, Json.objGet item "merged_at" = some j → (∃ s, j = Json.jstr s) ∨ j = Json.jnull) :
    ∃ r, (collect_stats api apiSingle roundKB clock providers).get? i =
        some ((providers.get ⟨i, hi⟩).repo, r) ∧
      r.pr_merged_30d = some (PyVal.vint
        ((Json.asList (api ("/repos/" ++ (providers.get ⟨i, hi⟩).repo ++
            "/pulls?state=closed&per_page=100"))).countP
          (fun item => match Json.objGet item "merged_at" with
            | some (Json.jstr s) => s ≠ "" && pyStrLe (isoOfEpoch (clock i - 2592000)) s
            | _ => false))) := by
  refine ⟨(get_provider_stats api apiSingle roundKB (providers.get ⟨i, hi⟩).repo
    ((providers.get ⟨i, hi⟩).provider_type.getD "") (clock i)).1, ?_, ?_⟩
  · simp [collect_stats, List.get?_eq_getElem?, List.getElem?_map, List.getElem?_enum, hi,
      List.getElem?_eq_getElem]
  · rfl

/-- Clock schedule for the C6 fixtures: the single provider's stats collection
starts at 1700000000, the snapshot is rendered 100 seconds later. -/
def c6clock : Nat → Int := fun i => if i = 0 then 1700000000 else 1700000100

/-- The closed-pulls request path of the C6 fixture provider. -/
def c6closedPath : String := "/repos/o/r/pulls?state=closed&per_page=100"

/-- A merge timestamp 50 seconds inside the window anchored at the fetch-entry
clock, but before the window anchored at the render clock. -/
def c6mergedAt : String := isoOfEpoch (1700000000 - 2592000 + 50)

/-- The C6 oracle: one closed pull request, merged at `c6mergedAt`. -/
def c6api : String → Option Json := fun s =>
  if s = c6closedPath then
    some (Json.jarr [Json.jobj [("merged_at", Json.jstr c6mergedAt)]])
  else none

/-- C6 counterexample: the code counts the item (anchor = fetch-entry clock of
that descriptor), while the count against the trailing 30-day window anchored
at the run's snapshot-generation timestamp (the clock reading the renderer
uses, 100 seconds later) is 0 — so the merged count is not computed against
the single snapshot-generation timestamp. -/
theorem c6_counterexample :
    (∃ r, collect_stats c6api apiNone (fun _ => PyVal.vint 0) c6clock [provB] = [("o/r", r)] ∧
      r.pr_merged_30d = some (PyVal.vint 1)) ∧
    c6clock [provB].length = 1700000100 ∧
    (Json.asList (c6api c6closedPath)).countP (fun item =>
        match Json.objGet item "merged_at" with
        | some (Json.jstr s) => pyStrLe (isoOfEpoch (1700000100 - 2592000)) s &&
            pyStrLe s (isoOfEpoch 1700000100)
        | _ => false) = 0 ∧
    (1 : Int) ≠ 0 := by
  refine ⟨⟨_, rfl, rfl⟩, rfl, by decide, by decide⟩

/-- Witness for C6: the amended theorem applied to the concrete one-provider
run. -/
theorem c6_merged_window_anchor_witness :
    ∃ r, (collect_stats c6api apiNone (fun _ => PyVal.vint 0) c6clock [provB]).get? 0 =
        some (([provB].get ⟨0, by decide⟩).repo, r) ∧
      r.pr_merged_30d = some (PyVal.vint
        ((Json.asList (c6api ("/repos/" ++ ([provB].get ⟨0, by decide⟩).repo ++
            "/pulls?state=closed&per_page=100"))).countP
          (fun item => match Json.objGet item "merged_at" with
            | some (Json.jstr s) => s ≠ "" && pyStrLe (isoOfEpoch (c6clock 0 - 2592000)) s
            | _ => false))) := by
  refine c6_merged_window_anchor c6api apiNone (fun _ => PyVal.vint 0) c6clock [provB] 0
    (by decide) ?_
  intro item hitem j hj
  have hlist : Json.asList (c6api ("/repos/" ++ ([provB].get ⟨0, by decide⟩).repo ++
      "/pulls?state=closed&per_page=100")) =
      [Json.jobj [("merged_at", Json.jstr c6mergedAt)]] := rfl
  rw [hlist] at hitem
  have hitem' : item = Json.jobj [("merged_at", Json.jstr c6mergedAt)] :=
    List.mem_singleton.mp hitem
  subst hitem'
  have h2 : some (Json.jstr c6mergedAt) = some j := hj
  cases h2
  exact Or.inl ⟨_, rfl⟩
